import Mathlib

/-!
Shallow embedding of the App-Market escrow program
(`src/programs/app-market/src/lib.rs`) and proofs about it.

Modelling conventions:
* `Pubkey` is an abstract account key, modelled as `Nat`.
* `u64` quantities are `Nat`; every `checked_add`/`checked_sub`/`checked_mul`
  on `u64` in the source is rendered with an explicit bound test against
  `2 ^ 64` (resp. an underflow test), failing with `MathOverflow` exactly as
  the source's `ok_or(AppMarketError::MathOverflow)` does.  Unchecked `u64`
  additions occurring inside comparisons are rendered as exact `Nat` sums.
* `i64` timestamps are `Int`; `checked_add` on `i64` is rendered with an
  explicit test against the `i64` range.
* Each Anchor instruction becomes a pure function from its account states and
  parameters to `Except AppMarketError` of its updated account states.
  Account-validation constraints declared in the `#[derive(Accounts)]` struct
  run before the instruction body, in declared account order, and are rendered
  first.  Lamport transfers are reported as explicit fields of the outcome
  record; account closes (`close = x`) are reported where a claim needs them.
* Account addresses and PDA derivation are outside the embedding: the
  cross-reference key fields (`Escrow.listing`, `Transaction.listing`,
  `Dispute.transaction`, `PendingWithdrawal.listing`, `OfferEscrow.offer`)
  and the PDA-equality requires are identity plumbing with no effect on the
  modelled state, and are omitted; `Offer.listing` is kept because
  `cancel_offer`/`expire_offer` compare it against the passed listing.
-/

namespace AppMarket

abbrev Pubkey := Nat

/-- `2 ^ 64`, the modulus of `u64`; a checked `u64` operation fails when the
exact result is not below this. -/
def U64_MOD : Nat := 2 ^ 64

/-- `2 ^ 63`: `i64` values lie in `[-I64_BOUND, I64_BOUND)`. -/
def I64_BOUND : Int := 2 ^ 63

/-- `saturating_add` on `u64` (used only for the config statistics). -/
def satAddU64 (a b : Nat) : Nat := min (a + b) (U64_MOD - 1)

-- Constants from the top of the program module.
def BASIS_POINTS_DIVISOR : Nat := 10000
def PLATFORM_FEE_BPS : Nat := 500
def APP_FEE_BPS : Nat := 300
def DISPUTE_FEE_BPS : Nat := 200
/-- The APP token mint address, an abstract distinguished key. -/
def APP_TOKEN_MINT : Pubkey := 1000003
def MAX_PLATFORM_FEE_BPS : Nat := 1000
def MAX_DISPUTE_FEE_BPS : Nat := 500
def TRANSFER_DEADLINE_SECONDS : Int := 7 * 24 * 60 * 60
def MAX_AUCTION_DURATION_SECONDS : Int := 30 * 24 * 60 * 60
def MIN_BID_INCREMENT_BPS : Nat := 500
def MIN_BID_INCREMENT_LAMPORTS : Nat := 100000000
def ANTI_SNIPE_WINDOW : Int := 15 * 60
def ANTI_SNIPE_EXTENSION : Int := 15 * 60
def ADMIN_TIMELOCK_SECONDS : Int := 48 * 60 * 60
def FINALIZE_GRACE_PERIOD : Int := 7 * 24 * 60 * 60
def MAX_BIDS_PER_LISTING : Nat := 1000
def MAX_OFFERS_PER_LISTING : Nat := 100
def MAX_CONSECUTIVE_OFFERS : Nat := 10
def MAX_CONSECUTIVE_BIDS : Nat := 10
def TX_FEE_BUFFER_LAMPORTS : Nat := 10000
def BACKEND_TIMEOUT_SECONDS : Int := 30 * 24 * 60 * 60
def DISPUTE_RESOLUTION_TIMELOCK_SECONDS : Int := 48 * 60 * 60
/-- The compile-time expected admin key, an abstract distinguished key. -/
def EXPECTED_ADMIN : Pubkey := 1000001

inductive ListingType where
  | Auction
  | BuyNow
deriving DecidableEq

/-- `ListingStatus` as declared in the source; the declaration omits an
`Expired` variant, but `expire_listing` assigns `ListingStatus::Expired`
(lib.rs line 1014), so the variant is included here as that assignment
requires. -/
inductive ListingStatus where
  | Active
  | Ended
  | Sold
  | Cancelled
  | InEscrow
  | TransferPending
  | Disputed
  | Completed
  | Refunded
  | Expired
deriving DecidableEq

inductive TransactionStatus where
  | Pending
  | Paid
  | InEscrow
  | TransferPending
  | TransferInProgress
  | AwaitingConfirmation
  | Disputed
  | Completed
  | Refunded
  | Cancelled
deriving DecidableEq

inductive DisputeStatus where
  | Open
  | UnderReview
  | Resolved
deriving DecidableEq

inductive DisputeResolution where
  | FullRefund
  | ReleaseToSeller
  | PartialRefund (buyer_amount seller_amount : Nat)
deriving DecidableEq

inductive OfferStatus where
  | Active
  | Accepted
  | Cancelled
  | Expired
deriving DecidableEq

inductive AppMarketError where
  | InvalidPrice
  | InvalidDuration
  | ListingNotActive
  | AuctionEnded
  | AuctionNotEnded
  | ListingExpired
  | ListingNotExpired
  | BidTooLow
  | SellerCannotBid
  | SellerCannotBuy
  | SellerCannotOffer
  | BuyNowNotEnabled
  | InvalidTransactionStatus
  | NotBuyer
  | NotSeller
  | NotAdmin
  | NotPartyToTransaction
  | DisputeNotOpen
  | HasBids
  | MathOverflow
  | InvalidPreviousBidder
  | InvalidTreasury
  | InvalidSeller
  | InvalidBuyer
  | InvalidBidder
  | InsufficientEscrowBalance
  | EscrowBalanceMismatch
  | InsufficientBalance
  | DeadlineNotPassed
  | InvalidRefundAmounts
  | UnauthorizedSettlement
  | BidIncrementTooSmall
  | ContractPaused
  | FeeTooHigh
  | NoPendingChange
  | TimelockNotExpired
  | MustOpenDispute
  | AlreadyConfirmed
  | NotWithdrawalOwner
  | NotOfferOwner
  | OfferNotActive
  | OfferExpired
  | OfferNotExpired
  | InvalidDeadline
  | NotAnAuction
  | SellerNotConfirmed
  | GracePeriodNotExpired
  | StartingPriceMustEqualReserve
  | BuyNowPriceRequired
  | UploadsNotVerified
  | AlreadyVerified
  | NotBackendAuthority
  | BidBelowReserve
  | CannotFinalizeDisputed
  | SellerMustSign
  | NoBidsToSettle
  | CannotCancelWithBids
  | PendingWithdrawalsExist
  | InvalidGithubUsername
  | DisputeDeadlineExpired
  | MaxBidsExceeded
  | MaxOffersExceeded
  | MaxConsecutiveOffersExceeded
  | MaxConsecutiveBidsExceeded
  | BackendTimeoutNotExpired
  | NotExpectedAdmin
  | PartialRefundMustEqualSalePrice
  | DisputeTimelockNotExpired
  | AlreadyContested
  | InvalidOfferSeed
  | InvalidWithdrawalId
  | InvalidPaymentMint
  | InvalidOffer
  | Unauthorized
  | PlatformPaused
deriving DecidableEq

structure MarketConfig where
  admin : Pubkey
  treasury : Pubkey
  backend_authority : Pubkey
  platform_fee_bps : Nat
  dispute_fee_bps : Nat
  total_volume : Nat
  total_sales : Nat
  paused : Bool
  pending_treasury : Option Pubkey
  pending_treasury_at : Option Int
  pending_admin : Option Pubkey
  pending_admin_at : Option Int
deriving DecidableEq

structure Listing where
  seller : Pubkey
  listing_id : String
  listing_type : ListingType
  starting_price : Nat
  reserve_price : Option Nat
  buy_now_price : Option Nat
  current_bid : Nat
  current_bidder : Option Pubkey
  created_at : Int
  auction_started : Bool
  auction_start_time : Option Int
  end_time : Int
  status : ListingStatus
  platform_fee_bps : Nat
  dispute_fee_bps : Nat
  requires_github : Bool
  required_github_username : String
  withdrawal_count : Nat
  offer_count : Nat
  last_offer_buyer : Option Pubkey
  consecutive_offer_count : Nat
  last_bidder : Option Pubkey
  consecutive_bid_count : Nat
  payment_mint : Option Pubkey
deriving DecidableEq

structure Escrow where
  amount : Nat
deriving DecidableEq

structure Transaction where
  seller : Pubkey
  buyer : Pubkey
  sale_price : Nat
  platform_fee : Nat
  seller_proceeds : Nat
  status : TransactionStatus
  transfer_deadline : Int
  created_at : Int
  seller_confirmed_transfer : Bool
  seller_confirmed_at : Option Int
  completed_at : Option Int
  uploads_verified : Bool
  verification_timestamp : Option Int
  verification_hash : String
deriving DecidableEq

structure Dispute where
  initiator : Pubkey
  respondent : Pubkey
  reason : String
  status : DisputeStatus
  resolution : Option DisputeResolution
  resolution_notes : Option String
  dispute_fee : Nat
  created_at : Int
  resolved_at : Option Int
  pending_resolution : Option DisputeResolution
  pending_buyer_amount : Option Nat
  pending_seller_amount : Option Nat
  pending_resolution_at : Option Int
  contested : Bool
deriving DecidableEq

structure PendingWithdrawal where
  user : Pubkey
  amount : Nat
  withdrawal_id : Nat
  created_at : Int
  expires_at : Int
deriving DecidableEq

structure Offer where
  listing : Pubkey
  buyer : Pubkey
  amount : Nat
  deadline : Int
  status : OfferStatus
  created_at : Int
deriving DecidableEq

structure OfferEscrow where
  amount : Nat
deriving DecidableEq

/-- Extract the error of an `Except` result, if any. -/
def errOf {α : Type} : Except AppMarketError α → Option AppMarketError
  | .error e => some e
  | .ok _ => none

-- ============================================================
-- Instructions: administrative envelope
-- ============================================================

/-- `propose_treasury_change` (lib.rs 140-160).  Not gated on `paused`. -/
def proposeTreasuryChange (config : MarketConfig) (admin : Pubkey)
    (new_treasury : Pubkey) (now : Int) : Except AppMarketError MarketConfig :=
  if admin ≠ config.admin then .error .NotAdmin
  else .ok { config with
    pending_treasury := some new_treasury
    pending_treasury_at := some now }

/-- `execute_treasury_change` (lib.rs 163-193).  Not gated on `paused`. -/
def executeTreasuryChange (config : MarketConfig) (admin : Pubkey)
    (now : Int) : Except AppMarketError MarketConfig :=
  if admin ≠ config.admin then .error .NotAdmin
  else match config.pending_treasury, config.pending_treasury_at with
  | some t, some proposed_at =>
    if now < proposed_at + ADMIN_TIMELOCK_SECONDS then .error .TimelockNotExpired
    else .ok { config with
      treasury := t
      pending_treasury := none
      pending_treasury_at := none }
  | some _, none => .error .MathOverflow
  | none, _ => .error .NoPendingChange

/-- `propose_admin_change` (lib.rs 196-216).  Not gated on `paused`. -/
def proposeAdminChange (config : MarketConfig) (admin : Pubkey)
    (new_admin : Pubkey) (now : Int) : Except AppMarketError MarketConfig :=
  if admin ≠ config.admin then .error .NotAdmin
  else .ok { config with
    pending_admin := some new_admin
    pending_admin_at := some now }

/-- `execute_admin_change` (lib.rs 219-249).  Not gated on `paused`. -/
def executeAdminChange (config : MarketConfig) (admin : Pubkey)
    (now : Int) : Except AppMarketError MarketConfig :=
  if admin ≠ config.admin then .error .NotAdmin
  else match config.pending_admin, config.pending_admin_at with
  | some a, some proposed_at =>
    if now < proposed_at + ADMIN_TIMELOCK_SECONDS then .error .TimelockNotExpired
    else .ok { config with
      admin := a
      pending_admin := none
      pending_admin_at := none }
  | some _, none => .error .MathOverflow
  | none, _ => .error .NoPendingChange

/-- `set_paused` (lib.rs 252-266). -/
def setPaused (config : MarketConfig) (admin : Pubkey) (p : Bool) :
    Except AppMarketError MarketConfig :=
  if admin ≠ config.admin then .error .NotAdmin
  else .ok { config with paused := p }

-- ============================================================
-- Instruction: create_listing
-- ============================================================

/-- The GitHub-username format validation embedded in `create_listing`
(lib.rs 312-339): at most 39 characters, alphanumeric or hyphen only,
no leading, trailing or consecutive hyphens. -/
def githubUsernameOk (username : String) : Bool :=
  username.length ≤ 39 &&
  username.toList.all (fun c => c.isAlphanum || c = '-') &&
  !(username.startsWith "-") &&
  !(username.endsWith "-") &&
  (username.splitOn "--").length = 1

/-- `create_listing` (lib.rs 269-408).  Returns the initialized listing and
its (zero-amount) escrow.  Fields the instruction leaves untouched on the
freshly `init`ed accounts are zero-initialized, as Anchor does. -/
def createListing (config : MarketConfig) (seller : Pubkey) (salt : Nat)
    (listing_type : ListingType) (starting_price : Nat)
    (reserve_price buy_now_price : Option Nat) (duration_seconds : Int)
    (requires_github : Bool) (required_github_username : String)
    (payment_mint : Option Pubkey) (now : Int) :
    Except AppMarketError (Listing × Escrow) :=
  if config.paused then .error .ContractPaused
  else if ¬ starting_price > 0 then .error .InvalidPrice
  else if ¬ (duration_seconds > 0 ∧ duration_seconds ≤ MAX_AUCTION_DURATION_SECONDS) then
    .error .InvalidDuration
  else if listing_type = ListingType.Auction ∧
      (∃ r, reserve_price = some r ∧ starting_price ≠ r) then
    .error .StartingPriceMustEqualReserve
  else if listing_type = ListingType.BuyNow ∧ buy_now_price = none then
    .error .BuyNowPriceRequired
  else if requires_github ∧ required_github_username ≠ "" ∧
      ¬ githubUsernameOk required_github_username then
    .error .InvalidGithubUsername
  else
    .ok ({ seller := seller
           listing_id := toString seller ++ "-" ++ toString salt
           listing_type := listing_type
           starting_price := starting_price
           reserve_price := reserve_price
           buy_now_price := buy_now_price
           current_bid := 0
           current_bidder := none
           created_at := now
           auction_started := false
           auction_start_time := none
           end_time := now + duration_seconds
           status := ListingStatus.Active
           platform_fee_bps :=
             if payment_mint = some APP_TOKEN_MINT then APP_FEE_BPS
             else config.platform_fee_bps
           dispute_fee_bps := config.dispute_fee_bps
           requires_github := requires_github
           required_github_username := required_github_username
           withdrawal_count := 0
           offer_count := 0
           last_offer_buyer := none
           consecutive_offer_count := 0
           last_bidder := none
           consecutive_bid_count := 0
           payment_mint := payment_mint },
         { amount := 0 })

-- ============================================================
-- Instruction: place_bid
-- ============================================================

structure BidOutcome where
  listing : Listing
  escrow : Escrow
  withdrawal : Option PendingWithdrawal
deriving DecidableEq

/-- EFFECTS step 1 of `place_bid` (lib.rs 502-524): record the new bid and
bidder and update the consecutive-bid tracker. -/
def bidCore (l : Listing) (bidder : Pubkey) (amount : Nat) : Listing :=
  { l with
    current_bid := amount
    current_bidder := some bidder
    last_bidder := some bidder
    consecutive_bid_count :=
      if l.last_bidder = some bidder then l.consecutive_bid_count + 1 else 1 }

/-- EFFECTS step 2 of `place_bid` (lib.rs 527-541): reserve-gated timer
start.  `l0` is the pre-call listing (whose `auction_started`, `end_time`
and `created_at` the source reads), `l` the listing after `bidCore`. -/
def bidTimer (l0 l : Listing) (reserve_met : Bool) (now : Int) : Listing :=
  if ¬ l0.auction_started ∧ reserve_met then
    { l with
      auction_started := true
      auction_start_time := some now
      end_time := now + (l0.end_time - l0.created_at) }
  else l

/-- EFFECTS step 3 of `place_bid` (lib.rs 549-553): anti-snipe extension,
applied to the (possibly rebased) listing. -/
def bidSnipe (l : Listing) (now : Int) : Listing :=
  if l.auction_started ∧ now > l.end_time - ANTI_SNIPE_WINDOW then
    { l with end_time := now + ANTI_SNIPE_EXTENSION }
  else l

/-- The listing after EFFECTS steps 1-2 of `place_bid` (the reserve-gate
predicate `reserve_met` of lib.rs 528-532 is recomputed from the pre-call
listing). -/
def bidListing1 (l : Listing) (bidder : Pubkey) (amount : Nat) (now : Int) : Listing :=
  bidTimer l (bidCore l bidder amount) (l.reserve_price.all (fun r => r ≤ amount)) now

/-- The listing after EFFECTS steps 1-3 of `place_bid`. -/
def bidListing2 (l : Listing) (bidder : Pubkey) (amount : Nat) (now : Int) : Listing :=
  bidSnipe (bidListing1 l bidder amount now) now

/-- A freshly created `PendingWithdrawal` record (lib.rs 610-621, 796-807,
1804-1816): 7-day advisory expiry from `now`. -/
def mkWithdrawal (user : Pubkey) (amount wid : Nat) (now : Int) : PendingWithdrawal :=
  { user := user
    amount := amount
    withdrawal_id := wid
    created_at := now
    expires_at := now + 7 * 24 * 60 * 60 }

/-- Increment of `listing.withdrawal_count` before creating a withdrawal
PDA (lib.rs 569-571, 756-758, 1764-1766). -/
def bumpWithdrawals (l : Listing) : Listing :=
  { l with withdrawal_count := l.withdrawal_count + 1 }

/-- The EFFECTS and INTERACTIONS phases of `place_bid` (lib.rs 501-631),
entered once all checks have passed: snapshot of old bid/bidder, bid and
consecutive-counter updates, reserve-gated timer start, escrow bump,
anti-snipe extension, and pending-withdrawal creation for a displaced
bidder.  A checked-arithmetic failure aborts the whole instruction and is
rendered as `.error .MathOverflow`. -/
def placeBidEffects (listing : Listing) (escrow : Escrow) (bidder : Pubkey)
    (amount : Nat) (now : Int) : Except AppMarketError BidOutcome :=
  if listing.last_bidder = some bidder ∧ U64_MOD ≤ listing.consecutive_bid_count + 1 then
    .error .MathOverflow
  else if ¬ listing.auction_started ∧ listing.reserve_price.all (fun r => r ≤ amount) ∧
      (I64_BOUND ≤ now + (listing.end_time - listing.created_at) ∨
       now + (listing.end_time - listing.created_at) < -I64_BOUND) then
    .error .MathOverflow
  else if U64_MOD ≤ escrow.amount + amount then .error .MathOverflow
  else if (bidListing1 listing bidder amount now).auction_started ∧
      now > (bidListing1 listing bidder amount now).end_time - ANTI_SNIPE_WINDOW ∧
      I64_BOUND ≤ now + ANTI_SNIPE_EXTENSION then
    .error .MathOverflow
  -- withdrawal creation for the displaced bidder (lib.rs 566-631)
  else match listing.current_bidder with
  | some previous_bidder =>
    if listing.current_bid > 0 then
      if U64_MOD ≤ (bidListing2 listing bidder amount now).withdrawal_count + 1 then
        .error .MathOverflow
      else
        .ok { listing := bumpWithdrawals (bidListing2 listing bidder amount now)
              escrow := { amount := escrow.amount + amount }
              withdrawal := some (mkWithdrawal previous_bidder listing.current_bid
                ((bidListing2 listing bidder amount now).withdrawal_count + 1) now) }
    else .ok { listing := bidListing2 listing bidder amount now
               escrow := { amount := escrow.amount + amount }
               withdrawal := none }
  | none => .ok { listing := bidListing2 listing bidder amount now
                  escrow := { amount := escrow.amount + amount }
                  withdrawal := none }

/-- The balance pre-check amount of `place_bid` (lib.rs 438-450): bid plus
withdrawal-PDA rent when a bidder would be displaced, plus the tx-fee
buffer. -/
def bidRequiredBalance (l : Listing) (amount withdrawal_rent : Nat) : Nat :=
  if l.current_bidder.isSome ∧ l.current_bid > 0 then
    amount + withdrawal_rent + TX_FEE_BUFFER_LAMPORTS
  else amount + TX_FEE_BUFFER_LAMPORTS

/-- The minimum acceptable next bid over a current bid (lib.rs 485-494):
the current bid plus the larger of its 5% (floored basis-point math) and
0.1 SOL. -/
def minBid (current_bid : Nat) : Nat :=
  current_bid +
    max (current_bid * MIN_BID_INCREMENT_BPS / BASIS_POINTS_DIVISOR) MIN_BID_INCREMENT_LAMPORTS

/-- The minimum-increment / starting-price rule of `place_bid`
(lib.rs 483-499), followed by the EFFECTS phase. -/
def placeBidPriced (listing : Listing) (escrow : Escrow) (bidder : Pubkey)
    (amount : Nat) (now : Int) : Except AppMarketError BidOutcome :=
  if listing.current_bid > 0 then
    if U64_MOD ≤ listing.current_bid * MIN_BID_INCREMENT_BPS then .error .MathOverflow
    else if U64_MOD ≤ minBid listing.current_bid then .error .MathOverflow
    else if amount < minBid listing.current_bid then .error .BidIncrementTooSmall
    else placeBidEffects listing escrow bidder amount now
  else if amount < listing.starting_price then .error .BidTooLow
  else placeBidEffects listing escrow bidder amount now

/-- `place_bid` (lib.rs 411-641).  `withdrawal_rent` is the runtime's
`Rent::minimum_balance` for a `PendingWithdrawal` account. -/
def placeBid (config : MarketConfig) (listing : Listing) (escrow : Escrow)
    (bidder : Pubkey) (bidder_lamports withdrawal_rent : Nat)
    (amount : Nat) (now : Int) : Except AppMarketError BidOutcome :=
  if config.paused then .error .ContractPaused
  else if listing.status ≠ ListingStatus.Active then .error .ListingNotActive
  else if listing.listing_type ≠ ListingType.Auction then .error .NotAnAuction
  else if listing.auction_started ∧ ¬ now < listing.end_time then .error .AuctionEnded
  else if bidder = listing.seller then .error .SellerCannotBid
  else if U64_MOD ≤ bidRequiredBalance listing amount withdrawal_rent then .error .MathOverflow
  else if bidder_lamports < bidRequiredBalance listing amount withdrawal_rent then
    .error .InsufficientBalance
  else if ¬ listing.withdrawal_count < MAX_BIDS_PER_LISTING then .error .MaxBidsExceeded
  else if listing.last_bidder = some bidder ∧
      ¬ listing.consecutive_bid_count < MAX_CONSECUTIVE_BIDS then
    .error .MaxConsecutiveBidsExceeded
  else if ¬ listing.auction_started ∧
      (∃ r, listing.reserve_price = some r ∧ amount < r) then
    .error .BidBelowReserve
  else placeBidPriced listing escrow bidder amount now

-- ============================================================
-- Instruction: withdraw_funds
-- ============================================================

/-- `withdraw_funds` (lib.rs 644-695).  Returns the updated escrow and the
amount paid out to the user.  The `PendingWithdrawal` account is closed with
its rent refunded to the user (Anchor `close = user`).  The clock is read
only for the emitted event's timestamp; in particular `expires_at` is never
consulted. -/
def withdrawFunds (withdrawal : PendingWithdrawal) (escrow : Escrow)
    (escrow_lamports rent : Nat) (user : Pubkey) (_now : Int) :
    Except AppMarketError (Escrow × Nat) :=
  if user ≠ withdrawal.user then .error .NotWithdrawalOwner
  else if escrow_lamports < withdrawal.amount + rent then .error .InsufficientEscrowBalance
  else if escrow.amount < withdrawal.amount then .error .MathOverflow
  else .ok ({ amount := escrow.amount - withdrawal.amount }, withdrawal.amount)

-- ============================================================
-- Instruction: buy_now
-- ============================================================

/-- Shared transaction-minting tail of `buy_now` (lib.rs 820-844),
`settle_auction` (lib.rs 908-932) and `accept_offer` (lib.rs 1829-1853):
a Transaction is created with fees computed from the LISTING's captured
basis points, not the live config.  Fields the instruction does not assign
stay at their Anchor zero-initialization. -/
def mkSaleTransaction (listing : Listing) (buyer : Pubkey) (sale_price : Nat)
    (now : Int) : Except AppMarketError Transaction :=
  if U64_MOD ≤ sale_price * listing.platform_fee_bps then .error .MathOverflow
  else if sale_price < sale_price * listing.platform_fee_bps / BASIS_POINTS_DIVISOR then
    .error .MathOverflow
  else if I64_BOUND ≤ now + TRANSFER_DEADLINE_SECONDS then .error .MathOverflow
  else .ok {
      seller := listing.seller
      buyer := buyer
      sale_price := sale_price
      platform_fee := sale_price * listing.platform_fee_bps / BASIS_POINTS_DIVISOR
      seller_proceeds := sale_price - sale_price * listing.platform_fee_bps / BASIS_POINTS_DIVISOR
      status := TransactionStatus.InEscrow
      transfer_deadline := now + TRANSFER_DEADLINE_SECONDS
      created_at := now
      seller_confirmed_transfer := false
      seller_confirmed_at := none
      completed_at := none
      uploads_verified := false
      verification_timestamp := none
      verification_hash := "" }

structure BuyNowOutcome where
  listing : Listing
  escrow : Escrow
  transaction : Transaction
  withdrawal : Option PendingWithdrawal
deriving DecidableEq

/-- The listing after the EFFECTS phase of `buy_now` (lib.rs 729-735):
the purchase wins immediately, the listing is Sold and ends now. -/
def buyNowListing (l : Listing) (buyer : Pubkey) (price : Nat) (now : Int) : Listing :=
  { l with
    current_bid := price
    current_bidder := some buyer
    status := ListingStatus.Sold
    end_time := now }

/-- `buy_now` (lib.rs 698-856).  Only SOL transfers are supported in this
path; a listing whose `payment_mint` is the APP token mint is rejected with
`InvalidPaymentMint` (lib.rs 715-720). -/
def buyNow (config : MarketConfig) (listing : Listing) (escrow : Escrow)
    (buyer : Pubkey) (buyer_lamports : Nat) (now : Int) :
    Except AppMarketError BuyNowOutcome :=
  if config.paused then .error .ContractPaused
  else if listing.status ≠ ListingStatus.Active then .error .ListingNotActive
  else if ¬ now < listing.end_time then .error .ListingExpired
  else match listing.buy_now_price with
  | none => .error .BuyNowNotEnabled
  | some buy_now_price =>
    if buyer = listing.seller then .error .SellerCannotBuy
    else if listing.payment_mint = some APP_TOKEN_MINT then .error .InvalidPaymentMint
    else if buyer_lamports < buy_now_price then .error .InsufficientBalance
    else if U64_MOD ≤ escrow.amount + buy_now_price then .error .MathOverflow
    else match listing.current_bidder with
    | some previous_bidder =>
      if listing.current_bid > 0 then
        if U64_MOD ≤ (buyNowListing listing buyer buy_now_price now).withdrawal_count + 1 then
          .error .MathOverflow
        else
          match mkSaleTransaction (bumpWithdrawals (buyNowListing listing buyer buy_now_price now))
              buyer buy_now_price now with
          | .error e => .error e
          | .ok tx =>
            .ok { listing := bumpWithdrawals (buyNowListing listing buyer buy_now_price now)
                  escrow := { amount := escrow.amount + buy_now_price }
                  transaction := tx
                  withdrawal := some (mkWithdrawal previous_bidder listing.current_bid
                    ((buyNowListing listing buyer buy_now_price now).withdrawal_count + 1) now) }
      else
        match mkSaleTransaction (buyNowListing listing buyer buy_now_price now)
            buyer buy_now_price now with
        | .error e => .error e
        | .ok tx =>
          .ok { listing := buyNowListing listing buyer buy_now_price now
                escrow := { amount := escrow.amount + buy_now_price }
                transaction := tx, withdrawal := none }
    | none =>
      match mkSaleTransaction (buyNowListing listing buyer buy_now_price now)
          buyer buy_now_price now with
      | .error e => .error e
      | .ok tx =>
        .ok { listing := buyNowListing listing buyer buy_now_price now
              escrow := { amount := escrow.amount + buy_now_price }
              transaction := tx, withdrawal := none }

-- ============================================================
-- Instructions: settle_auction, cancel_auction, expire_listing,
-- cancel_listing
-- ============================================================

/-- `settle_auction` (lib.rs 859-944). -/
def settleAuction (config : MarketConfig) (listing : Listing)
    (bidder payer : Pubkey) (now : Int) :
    Except AppMarketError (Listing × Transaction) :=
  if config.paused then .error .ContractPaused
  else if listing.status ≠ ListingStatus.Active then .error .ListingNotActive
  else if listing.listing_type ≠ ListingType.Auction then .error .NotAnAuction
  else if listing.auction_started ∧ now < listing.end_time then .error .AuctionNotEnded
  else if ¬ (payer = listing.seller ∨ listing.current_bidder = some payer ∨
      payer = config.admin) then .error .UnauthorizedSettlement
  else match listing.current_bidder with
  | none => .error .NoBidsToSettle
  | some winner =>
    if bidder ≠ winner then .error .InvalidBidder
    else
      match mkSaleTransaction { listing with status := ListingStatus.Sold }
          winner listing.current_bid now with
      | .error e => .error e
      | .ok tx => .ok ({ listing with status := ListingStatus.Sold }, tx)

/-- `cancel_auction` (lib.rs 947-991).  The escrow account is closed with
its rent refunded to the seller (Anchor `close = seller`, lib.rs 2623-2629). -/
def cancelAuction (config : MarketConfig) (listing : Listing)
    (seller : Pubkey) (now : Int) : Except AppMarketError Listing :=
  if config.paused then .error .PlatformPaused
  else if listing.status ≠ ListingStatus.Active then .error .ListingNotActive
  else if listing.listing_type ≠ ListingType.Auction then .error .NotAnAuction
  else if seller ≠ listing.seller then .error .NotSeller
  else if listing.current_bidder.isSome then .error .CannotCancelWithBids
  else if listing.auction_started ∧ now < listing.end_time then .error .AuctionNotEnded
  else .ok { listing with status := ListingStatus.Cancelled }

structure ExpireOutcome where
  listing : Listing
  escrow_closed_rent_to : Pubkey
deriving DecidableEq

/-- `expire_listing` (lib.rs 994-1022).  The `ExpireListing` accounts struct
(lib.rs 2637-2658) closes the escrow to the seller with the constraint
`listing.seller == seller.key()`, which runs before the body. -/
def expireListing (config : MarketConfig) (listing : Listing)
    (seller : Pubkey) (now : Int) : Except AppMarketError ExpireOutcome :=
  if listing.seller ≠ seller then .error .NotSeller
  else if config.paused then .error .PlatformPaused
  else if listing.status ≠ ListingStatus.Active then .error .ListingNotActive
  else if now < listing.end_time then .error .ListingNotExpired
  else if listing.current_bidder.isSome then .error .HasBids
  else .ok { listing := { listing with status := ListingStatus.Expired }
             escrow_closed_rent_to := seller }

/-- `cancel_listing` (lib.rs 2380-2398).  Not gated on `paused`; the escrow
is closed to the seller at the account level. -/
def cancelListing (listing : Listing) (seller : Pubkey) :
    Except AppMarketError Listing :=
  if listing.status ≠ ListingStatus.Active then .error .ListingNotActive
  else if seller ≠ listing.seller then .error .NotSeller
  else if listing.current_bidder.isSome then .error .HasBids
  else .ok { listing with status := ListingStatus.Cancelled }

-- ============================================================
-- Instructions: completion protocol
-- ============================================================

/-- `seller_confirm_transfer` (lib.rs 1025-1053).  Its accounts struct
(lib.rs 2660-2672) does not even include the config, so the instruction is
not gated on `paused`. -/
def sellerConfirmTransfer (transaction : Transaction) (seller : Pubkey)
    (now : Int) : Except AppMarketError Transaction :=
  if transaction.status ≠ TransactionStatus.InEscrow then .error .InvalidTransactionStatus
  else if seller ≠ transaction.seller then .error .NotSeller
  else if transaction.seller_confirmed_transfer then .error .AlreadyConfirmed
  else .ok { transaction with
    seller_confirmed_transfer := true
    seller_confirmed_at := some now }

/-- `verify_uploads` (lib.rs 1056-1090).  Not gated on `paused`. -/
def verifyUploads (config : MarketConfig) (transaction : Transaction)
    (backend_authority : Pubkey) (verification_hash : String) (now : Int) :
    Except AppMarketError Transaction :=
  if backend_authority ≠ config.backend_authority then .error .NotBackendAuthority
  else if ¬ transaction.seller_confirmed_transfer then .error .SellerNotConfirmed
  else if transaction.uploads_verified then .error .AlreadyVerified
  else .ok { transaction with
    uploads_verified := true
    verification_timestamp := some now
    verification_hash := verification_hash }

/-- `emergency_auto_verify` (lib.rs 1094-1136). -/
def emergencyAutoVerify (config : MarketConfig) (transaction : Transaction)
    (buyer : Pubkey) (now : Int) : Except AppMarketError Transaction :=
  if config.paused then .error .ContractPaused
  else if buyer ≠ transaction.buyer then .error .NotBuyer
  else if ¬ transaction.seller_confirmed_transfer then .error .SellerNotConfirmed
  else if transaction.uploads_verified then .error .AlreadyVerified
  else match transaction.seller_confirmed_at with
  | none => .error .SellerNotConfirmed
  | some confirmed_at =>
    if now < confirmed_at + BACKEND_TIMEOUT_SECONDS then .error .BackendTimeoutNotExpired
    else .ok { transaction with
      uploads_verified := true
      verification_timestamp := some now
      verification_hash := "EMERGENCY_BUYER_TIMEOUT" }

/-- `admin_emergency_verify` (lib.rs 1140-1182). -/
def adminEmergencyVerify (config : MarketConfig) (transaction : Transaction)
    (admin : Pubkey) (now : Int) : Except AppMarketError Transaction :=
  if config.paused then .error .ContractPaused
  else if admin ≠ config.admin then .error .NotAdmin
  else if ¬ transaction.seller_confirmed_transfer then .error .SellerNotConfirmed
  else if transaction.uploads_verified then .error .AlreadyVerified
  else match transaction.seller_confirmed_at with
  | none => .error .SellerNotConfirmed
  | some confirmed_at =>
    if now < confirmed_at + BACKEND_TIMEOUT_SECONDS then .error .BackendTimeoutNotExpired
    else .ok { transaction with
      uploads_verified := true
      verification_timestamp := some now
      verification_hash := "EMERGENCY_ADMIN_OVERRIDE" }

structure PayoutOutcome where
  transaction : Transaction
  escrow : Escrow
  config : MarketConfig
  paid_to_treasury : Nat
  paid_to_seller : Nat
deriving DecidableEq

/-- The escrow-validation and payout tail shared by `finalize_transaction`
(lib.rs 1234-1299) and `confirm_receipt` (lib.rs 1344-1413) after their
respective checks: custody-balance check, no-pending-withdrawals equality,
platform fee to treasury, proceeds to seller, Completed status, saturating
statistics.  `confirm_receipt` additionally performs the tracked-amount
mismatch check (lib.rs 1353-1360), enabled by `check_mismatch`. -/
def salePayoutChecked (check_mismatch : Bool) (config : MarketConfig)
    (transaction : Transaction) (escrow : Escrow) (escrow_lamports rent : Nat)
    (now : Int) : Except AppMarketError PayoutOutcome :=
  if U64_MOD ≤ transaction.platform_fee + transaction.seller_proceeds then
    .error .MathOverflow
  else if escrow_lamports < transaction.platform_fee + transaction.seller_proceeds + rent then
    .error .InsufficientEscrowBalance
  else if check_mismatch ∧ U64_MOD ≤ escrow.amount + rent then .error .MathOverflow
  else if check_mismatch ∧ escrow_lamports < escrow.amount + rent then
    .error .EscrowBalanceMismatch
  else if escrow.amount ≠ transaction.platform_fee + transaction.seller_proceeds then
    .error .PendingWithdrawalsExist
  else if escrow.amount < transaction.platform_fee then .error .MathOverflow
  else if escrow.amount - transaction.platform_fee < transaction.seller_proceeds then
    .error .MathOverflow
  else .ok {
    transaction := { transaction with
      status := TransactionStatus.Completed
      completed_at := some now }
    escrow := { amount := escrow.amount - transaction.platform_fee - transaction.seller_proceeds }
    config := { config with
      total_volume := satAddU64 config.total_volume transaction.sale_price
      total_sales := satAddU64 config.total_sales 1 }
    paid_to_treasury := transaction.platform_fee
    paid_to_seller := transaction.seller_proceeds }

/-- The payout tail of `finalize_transaction` (no mismatch check). -/
def salePayout (config : MarketConfig) (transaction : Transaction)
    (escrow : Escrow) (escrow_lamports rent : Nat) (now : Int) :
    Except AppMarketError PayoutOutcome :=
  salePayoutChecked false config transaction escrow escrow_lamports rent now

/-- `finalize_transaction` (lib.rs 1185-1311).  Account constraints
(lib.rs 2725-2745) on the seller and treasury run before the body; the
escrow is then closed to the seller.  The `unwrap()` of
`seller_confirmed_at` (lib.rs 1223) can only panic in states unreachable
through the program's own instructions; the panic aborts the instruction
and is rendered as `.error .MathOverflow`. -/
def finalizeTransaction (config : MarketConfig) (transaction : Transaction)
    (escrow : Escrow) (escrow_lamports rent : Nat) (seller treasury : Pubkey)
    (seller_signed : Bool) (now : Int) : Except AppMarketError PayoutOutcome :=
  if seller ≠ transaction.seller then .error .InvalidSeller
  else if treasury ≠ config.treasury then .error .InvalidTreasury
  else if config.paused then .error .ContractPaused
  else if seller ≠ transaction.seller then .error .NotSeller
  else if ¬ seller_signed then .error .SellerMustSign
  else if transaction.status = TransactionStatus.Disputed then .error .CannotFinalizeDisputed
  else if transaction.status ≠ TransactionStatus.InEscrow then .error .InvalidTransactionStatus
  else if ¬ transaction.seller_confirmed_transfer then .error .SellerNotConfirmed
  else if ¬ transaction.uploads_verified then .error .UploadsNotVerified
  else match transaction.seller_confirmed_at with
  | none => .error .MathOverflow
  | some confirmed_at =>
    if now < confirmed_at + FINALIZE_GRACE_PERIOD then .error .GracePeriodNotExpired
    else if treasury ≠ config.treasury then .error .InvalidTreasury
    else salePayout config transaction escrow escrow_lamports rent now

/-- `confirm_receipt` (lib.rs 1314-1425).  Account constraints
(lib.rs 2768-2788) on the seller and treasury run before the body; the
escrow is then closed to the seller. -/
def confirmReceipt (config : MarketConfig) (transaction : Transaction)
    (escrow : Escrow) (escrow_lamports rent : Nat)
    (buyer seller treasury : Pubkey) (now : Int) :
    Except AppMarketError PayoutOutcome :=
  if seller ≠ transaction.seller then .error .InvalidSeller
  else if treasury ≠ config.treasury then .error .InvalidTreasury
  else if config.paused then .error .ContractPaused
  else if transaction.status ≠ TransactionStatus.InEscrow then .error .InvalidTransactionStatus
  else if buyer ≠ transaction.buyer then .error .NotBuyer
  else if treasury ≠ config.treasury then .error .InvalidTreasury
  else if seller ≠ transaction.seller then .error .InvalidSeller
  else if ¬ transaction.uploads_verified then .error .UploadsNotVerified
  else salePayoutChecked true config transaction escrow escrow_lamports rent now

/-- `emergency_refund` (lib.rs 2294-2377).  Both the escrow and the
transaction accounts are closed to the buyer at the account level
(lib.rs 3083-3097). -/
structure RefundOutcome where
  transaction : Transaction
  escrow : Escrow
  paid_to_buyer : Nat
deriving DecidableEq

/-- `emergency_refund` body (lib.rs 2294-2377).  Not gated on `paused`:
its accounts struct (lib.rs 3078-3103) has no config account. -/
def emergencyRefund (transaction : Transaction) (escrow : Escrow)
    (escrow_lamports rent : Nat) (buyer : Pubkey) (now : Int) :
    Except AppMarketError RefundOutcome :=
  if transaction.status ≠ TransactionStatus.InEscrow then .error .InvalidTransactionStatus
  else if buyer ≠ transaction.buyer then .error .NotBuyer
  else if ¬ now > transaction.transfer_deadline then .error .DeadlineNotPassed
  else if transaction.seller_confirmed_transfer then .error .MustOpenDispute
  else if escrow_lamports < transaction.sale_price + rent then .error .InsufficientEscrowBalance
  else if U64_MOD ≤ escrow.amount + rent then .error .MathOverflow
  else if escrow_lamports < escrow.amount + rent then .error .EscrowBalanceMismatch
  else if escrow.amount ≠ transaction.sale_price then .error .PendingWithdrawalsExist
  else .ok {
    transaction := { transaction with
      status := TransactionStatus.Refunded
      completed_at := some now }
    escrow := { amount := escrow.amount - transaction.sale_price }
    paid_to_buyer := transaction.sale_price }

-- ============================================================
-- Instructions: offer engine
-- ============================================================

/-- The consecutive-offer tracker update of `make_offer` (lib.rs 1466-1488). -/
def offerTrack (l : Listing) (buyer : Pubkey) : Listing :=
  { l with
    last_offer_buyer := some buyer
    consecutive_offer_count :=
      if l.last_offer_buyer = some buyer then l.consecutive_offer_count + 1 else 1 }

/-- The consecutive-offer tracker decrement shared by `cancel_offer`
(lib.rs 1563-1570) and `expire_offer` (lib.rs 1640-1647); the subtraction
saturates. -/
def offerCountDecr (l : Listing) (buyer : Pubkey) : Listing :=
  if l.last_offer_buyer = some buyer ∧ l.consecutive_offer_count > 0 then
    { l with consecutive_offer_count := l.consecutive_offer_count - 1 }
  else l

/-- Tail of `make_offer` (lib.rs 1466-1525): the consecutive-offer bound
and tracker update, the offer-seed validation and the creation of the offer
and its escrow. -/
def makeOfferCreate (listing : Listing) (listing_key buyer : Pubkey)
    (amount : Nat) (deadline : Int) (offer_seed : Nat) (now : Int) :
    Except AppMarketError (Listing × Offer × OfferEscrow) :=
  if listing.last_offer_buyer = some buyer ∧
      ¬ listing.consecutive_offer_count < MAX_CONSECUTIVE_OFFERS then
    .error .MaxConsecutiveOffersExceeded
  else if listing.last_offer_buyer = some buyer ∧
      U64_MOD ≤ listing.consecutive_offer_count + 1 then
    .error .MathOverflow
  else if offer_seed ≠ listing.offer_count then .error .InvalidOfferSeed
  else if U64_MOD ≤ (offerTrack listing buyer).offer_count + 1 then .error .MathOverflow
  else .ok ({ offerTrack listing buyer with
      offer_count := (offerTrack listing buyer).offer_count + 1 },
    { listing := listing_key
      buyer := buyer
      amount := amount
      deadline := deadline
      status := OfferStatus.Active
      created_at := now },
    { amount := amount })

/-- `make_offer` (lib.rs 1428-1537).  `listing_key` is the listing account's
address, stored into the offer. -/
def makeOffer (config : MarketConfig) (listing : Listing) (listing_key : Pubkey)
    (buyer : Pubkey) (buyer_lamports : Nat) (amount : Nat) (deadline : Int)
    (offer_seed : Nat) (now : Int) :
    Except AppMarketError (Listing × Offer × OfferEscrow) :=
  if config.paused then .error .ContractPaused
  else if listing.status ≠ ListingStatus.Active then .error .ListingNotActive
  else if ¬ amount > 0 then .error .InvalidPrice
  else if ¬ deadline > now then .error .InvalidDeadline
  else if buyer = listing.seller then .error .SellerCannotOffer
  else if buyer_lamports < amount then .error .InsufficientBalance
  else if ¬ listing.offer_count < MAX_OFFERS_PER_LISTING then .error .MaxOffersExceeded
  else makeOfferCreate listing listing_key buyer amount deadline offer_seed now

/-- `cancel_offer` (lib.rs 1540-1608).  Not gated on `paused`: its accounts
struct (lib.rs 2831-2852) has no config account.  Returns the updated
listing and offer together with the amount refunded to the buyer; the offer
escrow is closed with rent to the buyer. -/
def cancelOffer (listing : Listing) (listing_key : Pubkey) (offer : Offer)
    (escrow_lamports rent : Nat) (buyer : Pubkey) (_now : Int) :
    Except AppMarketError (Listing × Offer × Nat) :=
  if offer.listing ≠ listing_key then .error .InvalidOffer
  else if buyer ≠ offer.buyer then .error .NotOfferOwner
  else if offer.status ≠ OfferStatus.Active then .error .OfferNotActive
  else if escrow_lamports < offer.amount + rent then .error .InsufficientEscrowBalance
  else .ok (offerCountDecr listing buyer,
    { offer with status := OfferStatus.Cancelled }, offer.amount)

/-- `expire_offer` (lib.rs 1612-1685).  The accounts struct (lib.rs 2854-2883)
constrains `buyer.key() == offer.buyer` before the body; the refund goes to
the offer's buyer, and only the buyer may call.  Not gated on `paused`. -/
def expireOffer (listing : Listing) (listing_key : Pubkey) (offer : Offer)
    (escrow_lamports rent : Nat) (buyer caller : Pubkey) (now : Int) :
    Except AppMarketError (Listing × Offer × Nat) :=
  if buyer ≠ offer.buyer then .error .InvalidBuyer
  else if offer.listing ≠ listing_key then .error .InvalidOffer
  else if offer.status ≠ OfferStatus.Active then .error .OfferNotActive
  else if ¬ now > offer.deadline then .error .OfferNotExpired
  else if caller ≠ offer.buyer then .error .NotOfferOwner
  else if escrow_lamports < offer.amount + rent then .error .InsufficientEscrowBalance
  else .ok (offerCountDecr listing offer.buyer,
    { offer with status := OfferStatus.Expired }, offer.amount)

structure AcceptOfferOutcome where
  listing : Listing
  offer : Offer
  listing_escrow : Escrow
  transaction : Transaction
  withdrawal : Option PendingWithdrawal
deriving DecidableEq

/-- The listing update of `accept_offer` (lib.rs 1717-1725): the listing is
Sold to the offer's buyer at the offer's amount and the consecutive-offer
tracker is reset. -/
def acceptListing (l : Listing) (offer : Offer) : Listing :=
  { l with
    status := ListingStatus.Sold
    current_bid := offer.amount
    current_bidder := some offer.buyer
    last_offer_buyer := none
    consecutive_offer_count := 0 }

/-- The escrow-funding, displaced-bidder and transaction-minting tail of
`accept_offer` (lib.rs 1727-1853).  The offer escrow is closed to the buyer
after its funds move into the listing escrow. -/
def acceptOfferSettle (listing : Listing) (offer : Offer)
    (listing_escrow : Escrow) (offer_escrow_lamports rent : Nat) (now : Int) :
    Except AppMarketError AcceptOfferOutcome :=
  if offer_escrow_lamports < offer.amount + rent then .error .InsufficientEscrowBalance
  else if U64_MOD ≤ listing_escrow.amount + offer.amount then .error .MathOverflow
  else match listing.current_bidder with
  | some previous_bidder =>
    if previous_bidder ≠ offer.buyer ∧ listing.current_bid > 0 then
      if U64_MOD ≤ (acceptListing listing offer).withdrawal_count + 1 then .error .MathOverflow
      else
        match mkSaleTransaction (bumpWithdrawals (acceptListing listing offer))
            offer.buyer offer.amount now with
        | .error e => .error e
        | .ok tx =>
          .ok { listing := bumpWithdrawals (acceptListing listing offer)
                offer := { offer with status := OfferStatus.Accepted }
                listing_escrow := { amount := listing_escrow.amount + offer.amount }
                transaction := tx
                withdrawal := some (mkWithdrawal previous_bidder listing.current_bid
                  ((acceptListing listing offer).withdrawal_count + 1) now) }
    else
      match mkSaleTransaction (acceptListing listing offer) offer.buyer offer.amount now with
      | .error e => .error e
      | .ok tx =>
        .ok { listing := acceptListing listing offer
              offer := { offer with status := OfferStatus.Accepted }
              listing_escrow := { amount := listing_escrow.amount + offer.amount }
              transaction := tx, withdrawal := none }
  | none =>
    match mkSaleTransaction (acceptListing listing offer) offer.buyer offer.amount now with
    | .error e => .error e
    | .ok tx =>
      .ok { listing := acceptListing listing offer
            offer := { offer with status := OfferStatus.Accepted }
            listing_escrow := { amount := listing_escrow.amount + offer.amount }
            transaction := tx, withdrawal := none }

/-- `accept_offer` (lib.rs 1688-1866) checks, followed by
`acceptOfferSettle`. -/
def acceptOffer (config : MarketConfig) (listing : Listing) (offer : Offer)
    (listing_escrow : Escrow) (offer_escrow_lamports rent : Nat)
    (seller buyer : Pubkey) (now : Int) :
    Except AppMarketError AcceptOfferOutcome :=
  if offer.buyer ≠ buyer then .error .InvalidBuyer
  else if config.paused then .error .ContractPaused
  else if seller ≠ listing.seller then .error .NotSeller
  else if listing.status ≠ ListingStatus.Active then .error .ListingNotActive
  else if offer.status ≠ OfferStatus.Active then .error .OfferNotActive
  else if ¬ now ≤ offer.deadline then .error .OfferExpired
  else acceptOfferSettle listing offer listing_escrow offer_escrow_lamports rent now

-- ============================================================
-- Instructions: dispute protocol
-- ============================================================

/-- `open_dispute` (lib.rs 1869-1952).  The treasury constraint in the
accounts struct (lib.rs 2964-2968) runs before the body.  Returns the
updated transaction, the created dispute record, and the dispute fee moved
from the initiator into the dispute account. -/
def openDispute (config : MarketConfig) (listing : Listing)
    (transaction : Transaction) (initiator : Pubkey) (initiator_lamports : Nat)
    (treasury : Pubkey) (reason : String) (now : Int) :
    Except AppMarketError (Transaction × Dispute × Nat) :=
  if treasury ≠ config.treasury then .error .InvalidTreasury
  else if config.paused then .error .PlatformPaused
  else if transaction.status ≠ TransactionStatus.InEscrow then .error .InvalidTransactionStatus
  else if ¬ (initiator = transaction.buyer ∨ initiator = transaction.seller) then
    .error .NotPartyToTransaction
  else if treasury ≠ config.treasury then .error .InvalidTreasury
  else if (∃ c, transaction.seller_confirmed_at = some c ∧ now > c + FINALIZE_GRACE_PERIOD) then
    .error .DisputeDeadlineExpired
  else if U64_MOD ≤ transaction.sale_price * listing.dispute_fee_bps then .error .MathOverflow
  else if initiator_lamports <
      transaction.sale_price * listing.dispute_fee_bps / BASIS_POINTS_DIVISOR then
    .error .InsufficientBalance
  else .ok ({ transaction with status := TransactionStatus.Disputed },
    { initiator := initiator
      respondent :=
        if initiator = transaction.buyer then transaction.seller else transaction.buyer
      reason := reason
      status := DisputeStatus.Open
      resolution := none
      resolution_notes := none
      dispute_fee := transaction.sale_price * listing.dispute_fee_bps / BASIS_POINTS_DIVISOR
      created_at := now
      resolved_at := none
      pending_resolution := none
      pending_buyer_amount := none
      pending_seller_amount := none
      pending_resolution_at := none
      contested := false },
    transaction.sale_price * listing.dispute_fee_bps / BASIS_POINTS_DIVISOR)

/-- `propose_dispute_resolution` (lib.rs 1957-2007).  Not gated on `paused`. -/
def proposeDisputeResolution (config : MarketConfig) (transaction : Transaction)
    (dispute : Dispute) (admin : Pubkey) (resolution : DisputeResolution)
    (notes : String) (now : Int) : Except AppMarketError Dispute :=
  if admin ≠ config.admin then .error .NotAdmin
  else if ¬ (dispute.status = DisputeStatus.Open ∨
      dispute.status = DisputeStatus.UnderReview) then .error .DisputeNotOpen
  else match resolution with
  | DisputeResolution.PartialRefund buyer_amount seller_amount =>
    if ¬ (buyer_amount > 0 ∨ seller_amount > 0) then .error .InvalidRefundAmounts
    else if U64_MOD ≤ buyer_amount + seller_amount then .error .MathOverflow
    else if buyer_amount + seller_amount ≠ transaction.sale_price then
      .error .PartialRefundMustEqualSalePrice
    else .ok { dispute with
      pending_buyer_amount := some buyer_amount
      pending_seller_amount := some seller_amount
      pending_resolution := some resolution
      pending_resolution_at := some now
      contested := false
      status := DisputeStatus.UnderReview
      resolution_notes := some notes }
  | _ => .ok { dispute with
      pending_buyer_amount := none
      pending_seller_amount := none
      pending_resolution := some resolution
      pending_resolution_at := some now
      contested := false
      status := DisputeStatus.UnderReview
      resolution_notes := some notes }

/-- `contest_dispute_resolution` (lib.rs 2011-2051).  Not gated on `paused`. -/
def contestDisputeResolution (transaction : Transaction) (dispute : Dispute)
    (caller : Pubkey) (now : Int) : Except AppMarketError Dispute :=
  if ¬ (caller = transaction.buyer ∨ caller = transaction.seller) then
    .error .NotPartyToTransaction
  else if dispute.pending_resolution = none then .error .NoPendingChange
  else match dispute.pending_resolution_at with
  | none => .error .MathOverflow
  | some proposed_at =>
    if ¬ now < proposed_at + DISPUTE_RESOLUTION_TIMELOCK_SECONDS then
      .error .TimelockNotExpired
    else if dispute.contested then .error .AlreadyContested
    else .ok { dispute with contested := true }

structure ExecDisputeOutcome where
  transaction : Transaction
  escrow : Escrow
  dispute : Dispute
  paid_to_buyer : Nat
  paid_to_seller : Nat
  paid_to_treasury : Nat
  fee_to_buyer : Nat
  fee_to_treasury : Nat
deriving DecidableEq

/-- The dispute-record update of `execute_dispute_resolution`
(lib.rs 2274-2280). -/
def resolvedDispute (d : Dispute) (resolution : DisputeResolution) (now : Int) : Dispute :=
  { d with
    status := DisputeStatus.Resolved
    resolution := some resolution
    resolved_at := some now
    pending_resolution := none
    pending_resolution_at := none }

/-- The payout branches of `execute_dispute_resolution` (lib.rs 2112-2290):
pending-withdrawals equality, then per-resolution transfers, dispute-fee
distribution and dispute closure. -/
def disputePayout (transaction : Transaction) (dispute : Dispute) (escrow : Escrow)
    (escrow_lamports rent : Nat) (resolution : DisputeResolution) (now : Int) :
    Except AppMarketError ExecDisputeOutcome :=
  if escrow.amount ≠ transaction.sale_price then .error .PendingWithdrawalsExist
  else match resolution with
        | DisputeResolution.FullRefund =>
          if escrow_lamports < transaction.sale_price + rent then
            .error .InsufficientEscrowBalance
          else .ok {
            transaction := { transaction with status := TransactionStatus.Refunded }
            escrow := { amount := escrow.amount - transaction.sale_price }
            dispute := resolvedDispute dispute resolution now
            paid_to_buyer := transaction.sale_price
            paid_to_seller := 0
            paid_to_treasury := 0
            fee_to_buyer := dispute.dispute_fee
            fee_to_treasury := 0 }
        | DisputeResolution.ReleaseToSeller =>
          if U64_MOD ≤ transaction.platform_fee + transaction.seller_proceeds then
            .error .MathOverflow
          else if escrow_lamports < transaction.platform_fee + transaction.seller_proceeds + rent then
            .error .InsufficientEscrowBalance
          else if escrow.amount < transaction.platform_fee then .error .MathOverflow
          else if escrow.amount - transaction.platform_fee < transaction.seller_proceeds then
            .error .MathOverflow
          else .ok {
            transaction := { transaction with status := TransactionStatus.Completed }
            escrow := { amount := escrow.amount - transaction.platform_fee - transaction.seller_proceeds }
            dispute := resolvedDispute dispute resolution now
            paid_to_buyer := 0
            paid_to_seller := transaction.seller_proceeds
            paid_to_treasury := transaction.platform_fee
            fee_to_buyer := 0
            fee_to_treasury := dispute.dispute_fee }
        | DisputeResolution.PartialRefund buyer_amount seller_amount =>
          if U64_MOD ≤ buyer_amount + seller_amount then .error .MathOverflow
          else if escrow_lamports < buyer_amount + seller_amount + rent then
            .error .InsufficientEscrowBalance
          else if escrow.amount < buyer_amount then .error .MathOverflow
          else if escrow.amount - buyer_amount < seller_amount then .error .MathOverflow
          else .ok {
            transaction := { transaction with status := TransactionStatus.Completed }
            escrow := { amount := escrow.amount - buyer_amount - seller_amount }
            dispute := resolvedDispute dispute resolution now
            paid_to_buyer := buyer_amount
            paid_to_seller := seller_amount
            paid_to_treasury := 0
            fee_to_buyer := 0
            fee_to_treasury := dispute.dispute_fee }


/-- `execute_dispute_resolution` (lib.rs 2055-2291).  The buyer, seller and
treasury constraints of the accounts struct (lib.rs 3020-3076) run before
the body; the escrow is closed to the seller and the dispute to the caller
after payout.  Not gated on `paused`. -/
def executeDisputeResolution (config : MarketConfig) (transaction : Transaction)
    (dispute : Dispute) (escrow : Escrow) (escrow_lamports rent : Nat)
    (caller buyer seller treasury : Pubkey) (now : Int) :
    Except AppMarketError ExecDisputeOutcome :=
  if buyer ≠ transaction.buyer then .error .InvalidBuyer
  else if seller ≠ transaction.seller then .error .InvalidSeller
  else if treasury ≠ config.treasury then .error .InvalidTreasury
  else if caller ≠ config.admin then .error .Unauthorized
  else match dispute.pending_resolution with
  | none => .error .NoPendingChange
  | some resolution =>
    if dispute.contested then .error .AlreadyContested
    else match dispute.pending_resolution_at with
    | none => .error .MathOverflow
    | some proposed_at =>
      if now < proposed_at + DISPUTE_RESOLUTION_TIMELOCK_SECONDS then
        .error .DisputeTimelockNotExpired
      else if treasury ≠ config.treasury then .error .InvalidTreasury
      else if buyer ≠ transaction.buyer then .error .InvalidBuyer
      else if seller ≠ transaction.seller then .error .InvalidSeller
      else disputePayout transaction dispute escrow escrow_lamports rent resolution now


-- ============================================================
-- Helper lemmas: projections of the listing-update stages
-- ============================================================

@[simp] theorem bidCore_platform_fee_bps (l : Listing) (b : Pubkey) (a : Nat) :
    (bidCore l b a).platform_fee_bps = l.platform_fee_bps := rfl

@[simp] theorem bidCore_dispute_fee_bps (l : Listing) (b : Pubkey) (a : Nat) :
    (bidCore l b a).dispute_fee_bps = l.dispute_fee_bps := rfl

@[simp] theorem bidCore_current_bid (l : Listing) (b : Pubkey) (a : Nat) :
    (bidCore l b a).current_bid = a := rfl

@[simp] theorem bidCore_status (l : Listing) (b : Pubkey) (a : Nat) :
    (bidCore l b a).status = l.status := rfl

@[simp] theorem bidCore_listing_type (l : Listing) (b : Pubkey) (a : Nat) :
    (bidCore l b a).listing_type = l.listing_type := rfl

@[simp] theorem bidCore_end_time (l : Listing) (b : Pubkey) (a : Nat) :
    (bidCore l b a).end_time = l.end_time := rfl

@[simp] theorem bidCore_auction_started (l : Listing) (b : Pubkey) (a : Nat) :
    (bidCore l b a).auction_started = l.auction_started := rfl

@[simp] theorem bidTimer_platform_fee_bps (l0 l : Listing) (rm : Bool) (now : Int) :
    (bidTimer l0 l rm now).platform_fee_bps = l.platform_fee_bps := by
  unfold bidTimer; split <;> rfl

@[simp] theorem bidTimer_dispute_fee_bps (l0 l : Listing) (rm : Bool) (now : Int) :
    (bidTimer l0 l rm now).dispute_fee_bps = l.dispute_fee_bps := by
  unfold bidTimer; split <;> rfl

@[simp] theorem bidTimer_current_bid (l0 l : Listing) (rm : Bool) (now : Int) :
    (bidTimer l0 l rm now).current_bid = l.current_bid := by
  unfold bidTimer; split <;> rfl

@[simp] theorem bidTimer_status (l0 l : Listing) (rm : Bool) (now : Int) :
    (bidTimer l0 l rm now).status = l.status := by
  unfold bidTimer; split <;> rfl

@[simp] theorem bidTimer_listing_type (l0 l : Listing) (rm : Bool) (now : Int) :
    (bidTimer l0 l rm now).listing_type = l.listing_type := by
  unfold bidTimer; split <;> rfl

@[simp] theorem bidSnipe_platform_fee_bps (l : Listing) (now : Int) :
    (bidSnipe l now).platform_fee_bps = l.platform_fee_bps := by
  unfold bidSnipe; split <;> rfl

@[simp] theorem bidSnipe_dispute_fee_bps (l : Listing) (now : Int) :
    (bidSnipe l now).dispute_fee_bps = l.dispute_fee_bps := by
  unfold bidSnipe; split <;> rfl

@[simp] theorem bidSnipe_current_bid (l : Listing) (now : Int) :
    (bidSnipe l now).current_bid = l.current_bid := by
  unfold bidSnipe; split <;> rfl

@[simp] theorem bidSnipe_status (l : Listing) (now : Int) :
    (bidSnipe l now).status = l.status := by
  unfold bidSnipe; split <;> rfl

@[simp] theorem bidSnipe_listing_type (l : Listing) (now : Int) :
    (bidSnipe l now).listing_type = l.listing_type := by
  unfold bidSnipe; split <;> rfl

@[simp] theorem bidSnipe_auction_started (l : Listing) (now : Int) :
    (bidSnipe l now).auction_started = l.auction_started := by
  unfold bidSnipe; split <;> rfl

@[simp] theorem bumpWithdrawals_platform_fee_bps (l : Listing) :
    (bumpWithdrawals l).platform_fee_bps = l.platform_fee_bps := rfl

@[simp] theorem bumpWithdrawals_dispute_fee_bps (l : Listing) :
    (bumpWithdrawals l).dispute_fee_bps = l.dispute_fee_bps := rfl

@[simp] theorem bumpWithdrawals_current_bid (l : Listing) :
    (bumpWithdrawals l).current_bid = l.current_bid := rfl

@[simp] theorem bumpWithdrawals_status (l : Listing) :
    (bumpWithdrawals l).status = l.status := rfl

@[simp] theorem bumpWithdrawals_listing_type (l : Listing) :
    (bumpWithdrawals l).listing_type = l.listing_type := rfl

@[simp] theorem bumpWithdrawals_end_time (l : Listing) :
    (bumpWithdrawals l).end_time = l.end_time := rfl

@[simp] theorem bumpWithdrawals_auction_started (l : Listing) :
    (bumpWithdrawals l).auction_started = l.auction_started := rfl

@[simp] theorem buyNowListing_platform_fee_bps (l : Listing) (b : Pubkey) (p : Nat) (now : Int) :
    (buyNowListing l b p now).platform_fee_bps = l.platform_fee_bps := rfl

@[simp] theorem buyNowListing_dispute_fee_bps (l : Listing) (b : Pubkey) (p : Nat) (now : Int) :
    (buyNowListing l b p now).dispute_fee_bps = l.dispute_fee_bps := rfl

@[simp] theorem buyNowListing_status (l : Listing) (b : Pubkey) (p : Nat) (now : Int) :
    (buyNowListing l b p now).status = ListingStatus.Sold := rfl

@[simp] theorem acceptListing_platform_fee_bps (l : Listing) (o : Offer) :
    (acceptListing l o).platform_fee_bps = l.platform_fee_bps := rfl

@[simp] theorem acceptListing_dispute_fee_bps (l : Listing) (o : Offer) :
    (acceptListing l o).dispute_fee_bps = l.dispute_fee_bps := rfl

@[simp] theorem acceptListing_status (l : Listing) (o : Offer) :
    (acceptListing l o).status = ListingStatus.Sold := rfl

@[simp] theorem offerTrack_platform_fee_bps (l : Listing) (b : Pubkey) :
    (offerTrack l b).platform_fee_bps = l.platform_fee_bps := rfl

@[simp] theorem offerTrack_dispute_fee_bps (l : Listing) (b : Pubkey) :
    (offerTrack l b).dispute_fee_bps = l.dispute_fee_bps := rfl

@[simp] theorem offerTrack_status (l : Listing) (b : Pubkey) :
    (offerTrack l b).status = l.status := rfl

@[simp] theorem offerTrack_listing_type (l : Listing) (b : Pubkey) :
    (offerTrack l b).listing_type = l.listing_type := rfl

@[simp] theorem offerTrack_current_bidder (l : Listing) (b : Pubkey) :
    (offerTrack l b).current_bidder = l.current_bidder := rfl

@[simp] theorem offerTrack_auction_started (l : Listing) (b : Pubkey) :
    (offerTrack l b).auction_started = l.auction_started := rfl

@[simp] theorem offerCountDecr_platform_fee_bps (l : Listing) (b : Pubkey) :
    (offerCountDecr l b).platform_fee_bps = l.platform_fee_bps := by
  unfold offerCountDecr; split <;> rfl

@[simp] theorem offerCountDecr_dispute_fee_bps (l : Listing) (b : Pubkey) :
    (offerCountDecr l b).dispute_fee_bps = l.dispute_fee_bps := by
  unfold offerCountDecr; split <;> rfl

@[simp] theorem offerCountDecr_status (l : Listing) (b : Pubkey) :
    (offerCountDecr l b).status = l.status := by
  unfold offerCountDecr; split <;> rfl

@[simp] theorem offerCountDecr_listing_type (l : Listing) (b : Pubkey) :
    (offerCountDecr l b).listing_type = l.listing_type := by
  unfold offerCountDecr; split <;> rfl

@[simp] theorem offerCountDecr_current_bidder (l : Listing) (b : Pubkey) :
    (offerCountDecr l b).current_bidder = l.current_bidder := by
  unfold offerCountDecr; split <;> rfl

@[simp] theorem offerCountDecr_auction_started (l : Listing) (b : Pubkey) :
    (offerCountDecr l b).auction_started = l.auction_started := by
  unfold offerCountDecr; split <;> rfl

theorem bidListing1_auction_started (l : Listing) (b : Pubkey) (a : Nat) (now : Int) :
    (bidListing1 l b a now).auction_started =
      (l.auction_started || l.reserve_price.all (fun r => r ≤ a)) := by
  unfold bidListing1 bidTimer
  split
  · next hc => simp_all
  · next hc =>
    push_neg at hc
    simp only [bidCore_auction_started]
    by_cases hs : l.auction_started <;> simp_all

@[simp] theorem bidListing2_platform_fee_bps (l : Listing) (b : Pubkey) (a : Nat) (now : Int) :
    (bidListing2 l b a now).platform_fee_bps = l.platform_fee_bps := by
  simp [bidListing2, bidListing1]

@[simp] theorem bidListing2_dispute_fee_bps (l : Listing) (b : Pubkey) (a : Nat) (now : Int) :
    (bidListing2 l b a now).dispute_fee_bps = l.dispute_fee_bps := by
  simp [bidListing2, bidListing1]

@[simp] theorem bidListing2_current_bid (l : Listing) (b : Pubkey) (a : Nat) (now : Int) :
    (bidListing2 l b a now).current_bid = a := by
  simp [bidListing2, bidListing1]

@[simp] theorem bidListing2_status (l : Listing) (b : Pubkey) (a : Nat) (now : Int) :
    (bidListing2 l b a now).status = l.status := by
  simp [bidListing2, bidListing1]

@[simp] theorem bidListing2_listing_type (l : Listing) (b : Pubkey) (a : Nat) (now : Int) :
    (bidListing2 l b a now).listing_type = l.listing_type := by
  simp [bidListing2, bidListing1]

theorem bidListing2_auction_started (l : Listing) (b : Pubkey) (a : Nat) (now : Int) :
    (bidListing2 l b a now).auction_started =
      (l.auction_started || l.reserve_price.all (fun r => r ≤ a)) := by
  simp [bidListing2, bidListing1_auction_started]

theorem bidListing1_end_time (l : Listing) (b : Pubkey) (a : Nat) (now : Int) :
    (bidListing1 l b a now).end_time =
      if ¬ l.auction_started ∧ l.reserve_price.all (fun r => r ≤ a) then
        now + (l.end_time - l.created_at)
      else l.end_time := by
  unfold bidListing1 bidTimer
  split <;> rfl

theorem bidSnipe_end_time (l : Listing) (now : Int) :
    (bidSnipe l now).end_time =
      if l.auction_started ∧ now > l.end_time - ANTI_SNIPE_WINDOW then
        now + ANTI_SNIPE_EXTENSION
      else l.end_time := by
  unfold bidSnipe
  split <;> rfl

-- ============================================================
-- Helper lemmas: outcome characterizations per instruction
-- ============================================================

set_option maxHeartbeats 2000000 in
/-- A successful `place_bid` leaves the listing's captured fees, status and
type unchanged, records the bid amount, starts (or keeps) the auction timer,
and its end time is that of the staged update `bidListing2`. -/
theorem placeBid_ok_listing (config : MarketConfig) (l : Listing) (e : Escrow)
    (b : Pubkey) (bl wr a : Nat) (now : Int) (out : BidOutcome)
    (h : placeBid config l e b bl wr a now = .ok out) :
    out.listing.platform_fee_bps = l.platform_fee_bps ∧
    out.listing.dispute_fee_bps = l.dispute_fee_bps ∧
    out.listing.current_bid = a ∧
    out.listing.status = l.status ∧
    out.listing.listing_type = l.listing_type ∧
    out.listing.auction_started = (l.auction_started || l.reserve_price.all (fun r => r ≤ a)) ∧
    out.listing.end_time = (bidListing2 l b a now).end_time := by
  unfold placeBid at h
  repeat' split at h
  all_goals try contradiction
  all_goals (
    unfold placeBidPriced placeBidEffects at h
    repeat' split at h
    all_goals try contradiction
    all_goals (cases h; exact ⟨by simp, by simp, by simp, by simp, by simp,
      by simp [bidListing2_auction_started], by simp⟩))

set_option maxHeartbeats 1000000 in
/-- The checks a successful `place_bid` must have passed. -/
theorem placeBid_ok_pre (config : MarketConfig) (l : Listing) (e : Escrow)
    (b : Pubkey) (bl wr a : Nat) (now : Int) (out : BidOutcome)
    (h : placeBid config l e b bl wr a now = .ok out) :
    config.paused = false ∧ l.status = ListingStatus.Active ∧
    l.listing_type = ListingType.Auction ∧
    (l.auction_started = true → now < l.end_time) ∧
    (l.auction_started || l.reserve_price.all (fun r => r ≤ a)) = true ∧
    (0 < l.current_bid → minBid l.current_bid ≤ a) ∧
    (l.current_bid = 0 → l.starting_price ≤ a) := by
  unfold placeBid at h
  repeat' split at h
  all_goals try contradiction
  rename_i hp hst hty htime hsell hov hbal hwc hcons hres
  push_neg at htime hres
  refine ⟨by simpa using hp, by simpa using hst, by simpa using hty, htime, ?_, ?_, ?_⟩
  · by_cases hs : l.auction_started = true
    · simp [hs]
    · have hs' : l.auction_started = false := by simpa using hs
      simp only [hs', Bool.false_or]
      cases hr : l.reserve_price with
      | none => rfl
      | some r =>
        have := hres (by simpa using hs) r hr
        simp only [Option.all]
        simpa using this
  · intro hcb
    unfold placeBidPriced at h
    rw [if_pos hcb] at h
    repeat' split at h
    all_goals try contradiction
    omega
  · intro hcb
    unfold placeBidPriced at h
    rw [if_neg (by omega)] at h
    split at h
    · contradiction
    · omega

set_option maxHeartbeats 1000000 in
/-- The fields of a freshly created listing that the claims consult, and
the paused gate `create_listing` must have passed. -/
theorem createListing_ok (config : MarketConfig) (seller : Pubkey) (salt : Nat)
    (lty : ListingType) (sp : Nat) (rp bnp : Option Nat) (dur : Int)
    (rg : Bool) (rgu : String) (pm : Option Pubkey) (now : Int)
    (le : Listing × Escrow)
    (h : createListing config seller salt lty sp rp bnp dur rg rgu pm now = .ok le) :
    le.1.platform_fee_bps =
      (if pm = some APP_TOKEN_MINT then APP_FEE_BPS else config.platform_fee_bps) ∧
    le.1.dispute_fee_bps = config.dispute_fee_bps ∧
    le.1.current_bidder = none ∧
    le.1.status = ListingStatus.Active ∧
    config.paused = false := by
  unfold createListing at h
  repeat' split at h
  all_goals try contradiction
  all_goals (cases h; exact ⟨by simp_all, rfl, rfl, rfl, by simp_all⟩)

set_option maxHeartbeats 2000000 in
/-- A successful `buy_now` keeps the captured fees, marks the listing Sold,
and can only have run on a listing whose payment mint is not the APP token. -/
theorem buyNow_ok (config : MarketConfig) (l : Listing) (e : Escrow)
    (buyer : Pubkey) (bl : Nat) (now : Int) (out : BuyNowOutcome)
    (h : buyNow config l e buyer bl now = .ok out) :
    out.listing.platform_fee_bps = l.platform_fee_bps ∧
    out.listing.dispute_fee_bps = l.dispute_fee_bps ∧
    out.listing.status = ListingStatus.Sold ∧
    l.payment_mint ≠ some APP_TOKEN_MINT := by
  unfold buyNow at h
  repeat' split at h
  all_goals try contradiction
  all_goals (cases h; exact ⟨by simp, by simp, by simp, by assumption⟩)

theorem settleAuction_ok (config : MarketConfig) (l : Listing)
    (bidder payer : Pubkey) (now : Int) (out : Listing × Transaction)
    (h : settleAuction config l bidder payer now = .ok out) :
    out.1 = { l with status := ListingStatus.Sold } := by
  unfold settleAuction at h
  repeat' split at h
  all_goals try contradiction
  cases h; rfl

theorem cancelAuction_ok (config : MarketConfig) (l : Listing)
    (seller : Pubkey) (now : Int) (out : Listing)
    (h : cancelAuction config l seller now = .ok out) :
    out = { l with status := ListingStatus.Cancelled } := by
  unfold cancelAuction at h
  repeat' split at h
  all_goals try contradiction
  cases h; rfl

theorem cancelListing_ok (l : Listing) (seller : Pubkey) (out : Listing)
    (h : cancelListing l seller = .ok out) :
    out = { l with status := ListingStatus.Cancelled } := by
  unfold cancelListing at h
  repeat' split at h
  all_goals try contradiction
  cases h; rfl

/-- Necessary conditions and the full outcome of a successful
`expire_listing`. -/
theorem expireListing_ok (config : MarketConfig) (l : Listing)
    (seller : Pubkey) (now : Int) (out : ExpireOutcome)
    (h : expireListing config l seller now = .ok out) :
    seller = l.seller ∧ config.paused = false ∧
    l.status = ListingStatus.Active ∧ l.end_time ≤ now ∧
    l.current_bidder = none ∧
    out = { listing := { l with status := ListingStatus.Expired }
            escrow_closed_rent_to := seller } := by
  unfold expireListing at h
  repeat' split at h
  all_goals try contradiction
  rename_i hsell hp hst hexp hbid
  cases h
  exact ⟨(not_not.mp hsell).symm, by simpa using hp, by simpa using hst,
    by omega, by simpa using hbid, rfl⟩

/-- Sufficient conditions for `expire_listing` to succeed. -/
theorem expireListing_complete (config : MarketConfig) (l : Listing)
    (seller : Pubkey) (now : Int)
    (hp : config.paused = false) (hsell : l.seller = seller)
    (hst : l.status = ListingStatus.Active) (hexp : l.end_time ≤ now)
    (hbid : l.current_bidder = none) :
    expireListing config l seller now =
      .ok { listing := { l with status := ListingStatus.Expired }
            escrow_closed_rent_to := seller } := by
  unfold expireListing
  rw [if_neg (by simp [hsell]), if_neg (by simp [hp]), if_neg (by simp [hst]),
    if_neg (by omega), if_neg (by simp [hbid])]

theorem makeOffer_ok (config : MarketConfig) (l : Listing) (lk buyer : Pubkey)
    (bl amount : Nat) (deadline : Int) (seed : Nat) (now : Int)
    (out : Listing × Offer × OfferEscrow)
    (h : makeOffer config l lk buyer bl amount deadline seed now = .ok out) :
    out.1 = { offerTrack l buyer with
      offer_count := (offerTrack l buyer).offer_count + 1 } := by
  unfold makeOffer at h
  repeat' split at h
  all_goals try contradiction
  unfold makeOfferCreate at h
  repeat' split at h
  all_goals try contradiction
  cases h; rfl

theorem cancelOffer_ok (l : Listing) (lk : Pubkey) (o : Offer)
    (el rent : Nat) (buyer : Pubkey) (now : Int) (out : Listing × Offer × Nat)
    (h : cancelOffer l lk o el rent buyer now = .ok out) :
    out.1 = offerCountDecr l buyer := by
  unfold cancelOffer at h
  repeat' split at h
  all_goals try contradiction
  cases h; rfl

theorem expireOffer_ok (l : Listing) (lk : Pubkey) (o : Offer)
    (el rent : Nat) (buyer caller : Pubkey) (now : Int) (out : Listing × Offer × Nat)
    (h : expireOffer l lk o el rent buyer caller now = .ok out) :
    out.1 = offerCountDecr l o.buyer := by
  unfold expireOffer at h
  repeat' split at h
  all_goals try contradiction
  cases h; rfl

set_option maxHeartbeats 2000000 in
theorem acceptOffer_ok (config : MarketConfig) (l : Listing) (o : Offer)
    (le : Escrow) (oel rent : Nat) (seller buyer : Pubkey) (now : Int)
    (out : AcceptOfferOutcome)
    (h : acceptOffer config l o le oel rent seller buyer now = .ok out) :
    out.listing.platform_fee_bps = l.platform_fee_bps ∧
    out.listing.dispute_fee_bps = l.dispute_fee_bps ∧
    out.listing.status = ListingStatus.Sold := by
  unfold acceptOffer at h
  repeat' split at h
  all_goals try contradiction
  unfold acceptOfferSettle at h
  repeat' split at h
  all_goals try contradiction
  all_goals (cases h; exact ⟨by simp, by simp, by simp⟩)

theorem createListing_paused (config : MarketConfig) (seller : Pubkey) (salt : Nat)
    (lty : ListingType) (sp : Nat) (rp bnp : Option Nat) (dur : Int) (rg : Bool)
    (rgu : String) (pm : Option Pubkey) (now : Int) (hp : config.paused = true) :
    createListing config seller salt lty sp rp bnp dur rg rgu pm now =
      .error .ContractPaused := by
  unfold createListing; simp [hp]

theorem placeBid_paused (config : MarketConfig) (l : Listing) (e : Escrow)
    (b : Pubkey) (bl wr a : Nat) (now : Int) (hp : config.paused = true) :
    placeBid config l e b bl wr a now = .error .ContractPaused := by
  unfold placeBid; simp [hp]

theorem buyNow_paused (config : MarketConfig) (l : Listing) (e : Escrow)
    (b : Pubkey) (bl : Nat) (now : Int) (hp : config.paused = true) :
    buyNow config l e b bl now = .error .ContractPaused := by
  unfold buyNow; simp [hp]

theorem settleAuction_paused (config : MarketConfig) (l : Listing)
    (bidder payer : Pubkey) (now : Int) (hp : config.paused = true) :
    settleAuction config l bidder payer now = .error .ContractPaused := by
  unfold settleAuction; simp [hp]

theorem cancelAuction_paused (config : MarketConfig) (l : Listing)
    (seller : Pubkey) (now : Int) (hp : config.paused = true) :
    cancelAuction config l seller now = .error .PlatformPaused := by
  unfold cancelAuction; simp [hp]

theorem expireListing_paused (config : MarketConfig) (l : Listing)
    (seller : Pubkey) (now : Int) (hp : config.paused = true)
    (hsell : l.seller = seller) :
    expireListing config l seller now = .error .PlatformPaused := by
  unfold expireListing; simp [hp, hsell]

theorem emergencyAutoVerify_paused (config : MarketConfig) (tx : Transaction)
    (buyer : Pubkey) (now : Int) (hp : config.paused = true) :
    emergencyAutoVerify config tx buyer now = .error .ContractPaused := by
  unfold emergencyAutoVerify; simp [hp]

theorem adminEmergencyVerify_paused (config : MarketConfig) (tx : Transaction)
    (admin : Pubkey) (now : Int) (hp : config.paused = true) :
    adminEmergencyVerify config tx admin now = .error .ContractPaused := by
  unfold adminEmergencyVerify; simp [hp]

theorem finalizeTransaction_paused (config : MarketConfig) (tx : Transaction)
    (e : Escrow) (el rent : Nat) (seller treasury : Pubkey) (sgn : Bool)
    (now : Int) (hp : config.paused = true)
    (hse : seller = tx.seller) (htr : treasury = config.treasury) :
    finalizeTransaction config tx e el rent seller treasury sgn now =
      .error .ContractPaused := by
  unfold finalizeTransaction; simp [hp, hse, htr]

theorem confirmReceipt_paused (config : MarketConfig) (tx : Transaction)
    (e : Escrow) (el rent : Nat) (buyer seller treasury : Pubkey)
    (now : Int) (hp : config.paused = true)
    (hse : seller = tx.seller) (htr : treasury = config.treasury) :
    confirmReceipt config tx e el rent buyer seller treasury now =
      .error .ContractPaused := by
  unfold confirmReceipt; simp [hp, hse, htr]

theorem makeOffer_paused (config : MarketConfig) (l : Listing) (lk buyer : Pubkey)
    (bl amount : Nat) (deadline : Int) (seed : Nat) (now : Int)
    (hp : config.paused = true) :
    makeOffer config l lk buyer bl amount deadline seed now =
      .error .ContractPaused := by
  unfold makeOffer; simp [hp]

theorem acceptOffer_paused (config : MarketConfig) (l : Listing) (o : Offer)
    (le : Escrow) (oel rent : Nat) (seller buyer : Pubkey) (now : Int)
    (hp : config.paused = true) (hb : o.buyer = buyer) :
    acceptOffer config l o le oel rent seller buyer now =
      .error .ContractPaused := by
  unfold acceptOffer; simp [hp, hb]

theorem openDispute_paused (config : MarketConfig) (l : Listing)
    (tx : Transaction) (initiator : Pubkey) (il : Nat) (treasury : Pubkey)
    (reason : String) (now : Int) (hp : config.paused = true)
    (htr : treasury = config.treasury) :
    openDispute config l tx initiator il treasury reason now =
      .error .PlatformPaused := by
  unfold openDispute; simp [hp, htr]

theorem verifyUploads_paused_independent (config : MarketConfig) (p : Bool)
    (tx : Transaction) (ba : Pubkey) (hash : String) (now : Int) :
    verifyUploads { config with paused := p } tx ba hash now =
      verifyUploads config tx ba hash now := rfl

theorem proposeDisputeResolution_paused_independent (config : MarketConfig)
    (p : Bool) (tx : Transaction) (d : Dispute) (admin : Pubkey)
    (res : DisputeResolution) (notes : String) (now : Int) :
    proposeDisputeResolution { config with paused := p } tx d admin res notes now =
      proposeDisputeResolution config tx d admin res notes now := rfl

theorem proposeTreasuryChange_paused_independent (config : MarketConfig)
    (p : Bool) (admin nt : Pubkey) (now : Int) :
    errOf (proposeTreasuryChange { config with paused := p } admin nt now) =
      errOf (proposeTreasuryChange config admin nt now) := by
  unfold proposeTreasuryChange errOf
  by_cases h : admin = config.admin <;> simp [h]

theorem executeTreasuryChange_paused_independent (config : MarketConfig)
    (p : Bool) (admin : Pubkey) (now : Int) :
    errOf (executeTreasuryChange { config with paused := p } admin now) =
      errOf (executeTreasuryChange config admin now) := by
  unfold executeTreasuryChange errOf
  by_cases h : admin = config.admin
  · cases hpt : config.pending_treasury with
    | none => simp [h, hpt]
    | some t =>
      cases hpa : config.pending_treasury_at with
      | none => simp [h, hpt, hpa]
      | some ts =>
        by_cases ht : now < ts + ADMIN_TIMELOCK_SECONDS <;> simp [h, hpt, hpa, ht]
  · simp [h]

theorem proposeAdminChange_paused_independent (config : MarketConfig)
    (p : Bool) (admin na : Pubkey) (now : Int) :
    errOf (proposeAdminChange { config with paused := p } admin na now) =
      errOf (proposeAdminChange config admin na now) := by
  unfold proposeAdminChange errOf
  by_cases h : admin = config.admin <;> simp [h]

theorem executeAdminChange_paused_independent (config : MarketConfig)
    (p : Bool) (admin : Pubkey) (now : Int) :
    errOf (executeAdminChange { config with paused := p } admin now) =
      errOf (executeAdminChange config admin now) := by
  unfold executeAdminChange errOf
  by_cases h : admin = config.admin
  · cases hpt : config.pending_admin with
    | none => simp [h, hpt]
    | some t =>
      cases hpa : config.pending_admin_at with
      | none => simp [h, hpt, hpa]
      | some ts =>
        by_cases ht : now < ts + ADMIN_TIMELOCK_SECONDS <;> simp [h, hpt, hpa, ht]
  · simp [h]

end AppMarket

namespace AppMarket

-- ============================================================
-- Concrete test vectors
-- ============================================================

/-- A deployed configuration with the spec's fee schedule (500, 200),
not paused. -/
def cfg0 : MarketConfig :=
  { admin := 1
    treasury := 2
    backend_authority := 3
    platform_fee_bps := 500
    dispute_fee_bps := 200
    total_volume := 0
    total_sales := 0
    paused := false
    pending_treasury := none
    pending_treasury_at := none
    pending_admin := none
    pending_admin_at := none }

/-- The same deployment, paused by the admin. -/
def cfgPaused : MarketConfig := { cfg0 with paused := true }

/-- The deployment with a treasury rotation to key 9 proposed at time 0. -/
def cfgPend : MarketConfig :=
  { cfg0 with pending_treasury := some 9, pending_treasury_at := some 0 }

/-- An active reserve auction: seller 10, start = reserve = 1 SOL,
created at 0, one-hour duration, timer not started. -/
def lAuc : Listing :=
  { seller := 10
    listing_id := "10-0"
    listing_type := ListingType.Auction
    starting_price := 1000000000
    reserve_price := some 1000000000
    buy_now_price := none
    current_bid := 0
    current_bidder := none
    created_at := 0
    auction_started := false
    auction_start_time := none
    end_time := 3600
    status := ListingStatus.Active
    platform_fee_bps := 500
    dispute_fee_bps := 200
    requires_github := false
    required_github_username := ""
    withdrawal_count := 0
    offer_count := 0
    last_offer_buyer := none
    consecutive_offer_count := 0
    last_bidder := none
    consecutive_bid_count := 0
    payment_mint := none }

/-- `lAuc` after a first qualifying bid of 1 SOL by key 20 at t = 10. -/
def lBid : Listing :=
  { lAuc with
    current_bid := 1000000000
    current_bidder := some 20
    auction_started := true
    auction_start_time := some 10
    end_time := 3610
    last_bidder := some 20
    consecutive_bid_count := 1 }

/-- An active BuyNow listing paid in some SPL token that is NOT the APP
token (mint key 555). -/
def lMint : Listing :=
  { lAuc with
    listing_type := ListingType.BuyNow
    buy_now_price := some 2000000000
    reserve_price := none
    end_time := 86400
    payment_mint := some 555 }

/-- An active BuyNow listing declaring the APP token as payment mint
(so its captured platform fee is the discounted 300 bps). -/
def lApp : Listing :=
  { lMint with payment_mint := some APP_TOKEN_MINT, platform_fee_bps := 300 }

/-- A buy-now sale of 2 SOL at t = 0: transaction in escrow, fees captured
from the listing (500 bps), transfer deadline 7 days. -/
def tx0 : Transaction :=
  { seller := 10
    buyer := 20
    sale_price := 2000000000
    platform_fee := 100000000
    seller_proceeds := 1900000000
    status := TransactionStatus.InEscrow
    transfer_deadline := 604800
    created_at := 0
    seller_confirmed_transfer := false
    seller_confirmed_at := none
    completed_at := none
    uploads_verified := false
    verification_timestamp := none
    verification_hash := "" }

/-- `tx0` after the seller confirmed the transfer at t = 1 day. -/
def tx1 : Transaction :=
  { tx0 with seller_confirmed_transfer := true, seller_confirmed_at := some 86400 }

/-- The escrow fully funded for `tx0`'s sale price. -/
def e2 : Escrow := { amount := 2000000000 }

/-- A dispute over `tx0` with a FullRefund resolution proposed at t = 0,
not contested. -/
def d0 : Dispute :=
  { initiator := 20
    respondent := 10
    reason := "assets not delivered"
    status := DisputeStatus.UnderReview
    resolution := none
    resolution_notes := some "full refund"
    dispute_fee := 40000000
    created_at := 0
    resolved_at := none
    pending_resolution := some DisputeResolution.FullRefund
    pending_buyer_amount := none
    pending_seller_amount := none
    pending_resolution_at := some 0
    contested := false }

/-- A pending withdrawal of 1 SOL for displaced bidder 20, created at 0,
with the advisory 7-day expiry. -/
def w0 : PendingWithdrawal :=
  { user := 20
    amount := 1000000000
    withdrawal_id := 1
    created_at := 0
    expires_at := 604800 }

/-- An active 1-SOL offer by key 20 on the listing at key 77. -/
def o0 : Offer :=
  { listing := 77
    buyer := 20
    amount := 1000000000
    deadline := 9999
    status := OfferStatus.Active
    created_at := 0 }

-- ============================================================
-- Claims
-- ============================================================

/-- C5: for each two-step change (treasury rotation, admin rotation,
dispute resolution), the execute operation fails with the timelock error
whenever now − proposal time < 48·3600 (under the checks that precede the
timelock comparison), and success implies proposal time + 48h ≤ now.
Failure returns an error, so no state changes. -/
theorem C5_timelocks :
    (∀ config admin now c, executeTreasuryChange config admin now = .ok c →
      ∃ t, config.pending_treasury_at = some t ∧ t + ADMIN_TIMELOCK_SECONDS ≤ now) ∧
    (∀ config admin now pt t, admin = config.admin →
      config.pending_treasury = some pt → config.pending_treasury_at = some t →
      now < t + ADMIN_TIMELOCK_SECONDS →
      executeTreasuryChange config admin now = .error .TimelockNotExpired) ∧
    (∀ config admin now c, executeAdminChange config admin now = .ok c →
      ∃ t, config.pending_admin_at = some t ∧ t + ADMIN_TIMELOCK_SECONDS ≤ now) ∧
    (∀ config admin now pa t, admin = config.admin →
      config.pending_admin = some pa → config.pending_admin_at = some t →
      now < t + ADMIN_TIMELOCK_SECONDS →
      executeAdminChange config admin now = .error .TimelockNotExpired) ∧
    (∀ config tx d e el rent caller buyer seller treasury now out,
      executeDisputeResolution config tx d e el rent caller buyer seller treasury now =
        .ok out →
      ∃ t, d.pending_resolution_at = some t ∧
        t + DISPUTE_RESOLUTION_TIMELOCK_SECONDS ≤ now) ∧
    (∀ config tx d e el rent caller buyer seller treasury now res t,
      buyer = tx.buyer → seller = tx.seller → treasury = config.treasury →
      caller = config.admin → d.pending_resolution = some res →
      d.contested = false → d.pending_resolution_at = some t →
      now < t + DISPUTE_RESOLUTION_TIMELOCK_SECONDS →
      executeDisputeResolution config tx d e el rent caller buyer seller treasury now =
        .error .DisputeTimelockNotExpired) := by
  refine ⟨?_, ?_, ?_, ?_, ?_, ?_⟩
  · intro config admin now c h
    unfold executeTreasuryChange at h
    repeat' split at h
    all_goals try contradiction
    rename_i t hpa hlt
    exact ⟨_, hpa, by omega⟩
  · intro config admin now pt t ha hpt hpa hlt
    unfold executeTreasuryChange
    rw [if_neg (by simp [ha])]
    rw [hpt, hpa]
    simp [hlt]
  · intro config admin now c h
    unfold executeAdminChange at h
    repeat' split at h
    all_goals try contradiction
    rename_i t hpa hlt
    exact ⟨_, hpa, by omega⟩
  · intro config admin now pa t ha hpa hpat hlt
    unfold executeAdminChange
    rw [if_neg (by simp [ha])]
    rw [hpa, hpat]
    simp [hlt]
  · intro config tx d e el rent caller buyer seller treasury now out h
    unfold executeDisputeResolution at h
    repeat' split at h
    all_goals try contradiction
    rename_i hres hcont t hat hlt
    exact ⟨_, hat, by omega⟩
  · intro config tx d e el rent caller buyer seller treasury now res t
      hb hs htr hc hres hcont hat hlt
    unfold executeDisputeResolution
    rw [if_neg (by simp [hb]), if_neg (by simp [hs]), if_neg (by simp [htr]),
      if_neg (by simp [hc]), hres]
    simp [hcont, hat, hlt]

/-- C5 witness: with a treasury rotation proposed at t = 0, executing at
t = 100 (< 48h) fails with TimelockNotExpired; the admin-rotation and
dispute cases are exercised at the same concrete times. -/
theorem C5_witness :
    executeTreasuryChange cfgPend 1 100 = .error .TimelockNotExpired ∧
    executeDisputeResolution cfg0 tx0 d0 e2 3000000000 1000 1 20 10 2 100 =
      .error .DisputeTimelockNotExpired := by
  constructor
  · exact C5_timelocks.2.1 cfgPend 1 100 9 0 rfl rfl rfl (by decide)
  · exact C5_timelocks.2.2.2.2.2 cfg0 tx0 d0 e2 3000000000 1000 1 20 10 2 100
      DisputeResolution.FullRefund 0 rfl rfl rfl rfl rfl rfl rfl (by decide)

/-- C6: `emergency_refund` succeeds only when the transaction is InEscrow,
the caller is the buyer, now is past the transfer deadline and the seller
never confirmed; on success the buyer is paid the full sale price and the
transaction becomes Refunded.  If the seller confirmed (under the same
preceding checks) it fails with MustOpenDispute, an error, so nothing
changes. -/
theorem C6_emergency_refund :
    (∀ tx e el rent buyer now out, emergencyRefund tx e el rent buyer now = .ok out →
      tx.status = TransactionStatus.InEscrow ∧ buyer = tx.buyer ∧
      tx.transfer_deadline < now ∧ tx.seller_confirmed_transfer = false ∧
      out.paid_to_buyer = tx.sale_price ∧
      out.transaction.status = TransactionStatus.Refunded) ∧
    (∀ tx e el rent buyer now,
      tx.status = TransactionStatus.InEscrow → buyer = tx.buyer →
      tx.transfer_deadline < now → tx.seller_confirmed_transfer = true →
      emergencyRefund tx e el rent buyer now = .error .MustOpenDispute) := by
  constructor
  · intro tx e el rent buyer now out h
    unfold emergencyRefund at h
    repeat' split at h
    all_goals try contradiction
    rename_i hst hb hd hconf h1 h2 h3 h4
    cases h
    exact ⟨not_not.mp hst, not_not.mp hb, by omega, by simpa using hconf, rfl, rfl⟩
  · intro tx e el rent buyer now hst hb hd hconf
    unfold emergencyRefund
    rw [if_neg (by simp [hst]), if_neg (by simp [hb]),
      if_neg (not_not_intro hd), if_pos hconf]

/-- C6 witness: at t = 7d+1s the buyer of the unconfirmed sale `tx0` is
refunded the full 2 SOL and the transaction is Refunded; with the seller
having confirmed (`tx1`) the same call fails with MustOpenDispute. -/
theorem C6_witness :
    ((emergencyRefund tx0 e2 3000000000 1000 20 604801).toOption.map
      (fun o => (o.paid_to_buyer, o.transaction.status))) =
        some (2000000000, TransactionStatus.Refunded) ∧
    emergencyRefund tx1 e2 3000000000 1000 20 604801 = .error .MustOpenDispute := by
  constructor
  · rfl
  · exact C6_emergency_refund.2 tx1 e2 3000000000 1000 20 604801 rfl rfl
      (by decide) rfl

/-- C10: `withdraw_funds` never inspects `expires_at` — the result is
unchanged under any replacement of that field — and the recorded owner can
claim the full amount at any time (the clock argument is unused), given
only the escrow-balance preconditions. -/
theorem C10_withdraw_ignores_expiry :
    (∀ w e el rent user now t,
      withdrawFunds w e el rent user now =
        withdrawFunds { w with expires_at := t } e el rent user now) ∧
    (∀ w e el rent user now, user = w.user → w.amount + rent ≤ el →
      w.amount ≤ e.amount →
      withdrawFunds w e el rent user now =
        .ok ({ amount := e.amount - w.amount }, w.amount)) := by
  constructor
  · intro w e el rent user now t
    rfl
  · intro w e el rent user now hu hbal hamt
    unfold withdrawFunds
    rw [if_neg (by simp [hu]), if_neg (by omega), if_neg (by omega)]

/-- C10 witness: long after the advisory expiry (t = 10⁹ ≫ expires_at =
604800), withdrawal `w0`'s owner (key 20) still claims the full 1 SOL, and
the result equals that of the same withdrawal with any other expiry. -/
theorem C10_witness :
    withdrawFunds w0 { amount := 1200000000 } 1300000000 1000 20 1000000000 =
      .ok ({ amount := 200000000 }, 1000000000) ∧
    withdrawFunds w0 { amount := 1200000000 } 1300000000 1000 20 1000000000 =
      withdrawFunds { w0 with expires_at := 0 }
        { amount := 1200000000 } 1300000000 1000 20 1000000000 := by
  constructor
  · exact C10_withdraw_ignores_expiry.2 w0 { amount := 1200000000 } 1300000000
      1000 20 1000000000 rfl (by decide) (by decide)
  · exact C10_withdraw_ignores_expiry.1 w0 { amount := 1200000000 } 1300000000
      1000 20 1000000000 0
/-- C1 counterexample: the claim says the created listing snapshots
`platform_fee_bps` from the Config, but with the Config at 500 bps a
listing created with the APP token as payment mint captures the fixed
discount 300 bps instead (lib.rs 362-367), so the captured value differs
from the Config value at the instant `create_listing` ran. -/
theorem C1_counterexample :
    cfg0.platform_fee_bps = 500 ∧
    (createListing cfg0 10 0 ListingType.BuyNow 2000000000 none (some 2000000000)
        86400 false "" (some APP_TOKEN_MINT) 0).toOption.map
      (fun p => p.1.platform_fee_bps) = some 300 := by
  exact ⟨rfl, rfl⟩

/-- C1 (amended): at creation the listing captures `dispute_fee_bps` from
the Config, and `platform_fee_bps` from the Config unless the payment mint
is the APP token, in which case the fixed APP_FEE_BPS = 300 is captured;
no listing-mutating operation (bid, buy-now, settle, cancel, expire,
offers) changes either captured fee afterwards. -/
theorem C1_fee_capture_amended :
    (∀ config seller salt lty sp rp bnp dur rg rgu pm now le,
      createListing config seller salt lty sp rp bnp dur rg rgu pm now = .ok le →
      le.1.platform_fee_bps =
        (if pm = some APP_TOKEN_MINT then APP_FEE_BPS else config.platform_fee_bps) ∧
      le.1.dispute_fee_bps = config.dispute_fee_bps) ∧
    (∀ config l e bidder bl wr a now out,
      placeBid config l e bidder bl wr a now = .ok out →
      out.listing.platform_fee_bps = l.platform_fee_bps ∧
      out.listing.dispute_fee_bps = l.dispute_fee_bps) ∧
    (∀ config l e buyer bl now out, buyNow config l e buyer bl now = .ok out →
      out.listing.platform_fee_bps = l.platform_fee_bps ∧
      out.listing.dispute_fee_bps = l.dispute_fee_bps) ∧
    (∀ config l bidder payer now out, settleAuction config l bidder payer now = .ok out →
      out.1.platform_fee_bps = l.platform_fee_bps ∧
      out.1.dispute_fee_bps = l.dispute_fee_bps) ∧
    (∀ config l seller now out, cancelAuction config l seller now = .ok out →
      out.platform_fee_bps = l.platform_fee_bps ∧
      out.dispute_fee_bps = l.dispute_fee_bps) ∧
    (∀ config l seller now out, expireListing config l seller now = .ok out →
      out.listing.platform_fee_bps = l.platform_fee_bps ∧
      out.listing.dispute_fee_bps = l.dispute_fee_bps) ∧
    (∀ l seller out, cancelListing l seller = .ok out →
      out.platform_fee_bps = l.platform_fee_bps ∧
      out.dispute_fee_bps = l.dispute_fee_bps) ∧
    (∀ config l lk buyer bl amount deadline seed now out,
      makeOffer config l lk buyer bl amount deadline seed now = .ok out →
      out.1.platform_fee_bps = l.platform_fee_bps ∧
      out.1.dispute_fee_bps = l.dispute_fee_bps) ∧
    (∀ l lk o el rent buyer now out, cancelOffer l lk o el rent buyer now = .ok out →
      out.1.platform_fee_bps = l.platform_fee_bps ∧
      out.1.dispute_fee_bps = l.dispute_fee_bps) ∧
    (∀ l lk o el rent buyer caller now out,
      expireOffer l lk o el rent buyer caller now = .ok out →
      out.1.platform_fee_bps = l.platform_fee_bps ∧
      out.1.dispute_fee_bps = l.dispute_fee_bps) ∧
    (∀ config l o le oel rent seller buyer now out,
      acceptOffer config l o le oel rent seller buyer now = .ok out →
      out.listing.platform_fee_bps = l.platform_fee_bps ∧
      out.listing.dispute_fee_bps = l.dispute_fee_bps) := by
  refine ⟨?_, ?_, ?_, ?_, ?_, ?_, ?_, ?_, ?_, ?_, ?_⟩
  · intro config seller salt lty sp rp bnp dur rg rgu pm now le h
    have hc := createListing_ok config seller salt lty sp rp bnp dur rg rgu pm now le h
    exact ⟨hc.1, hc.2.1⟩
  · intro config l e bidder bl wr a now out h
    have hc := placeBid_ok_listing config l e bidder bl wr a now out h
    exact ⟨hc.1, hc.2.1⟩
  · intro config l e buyer bl now out h
    have hc := buyNow_ok config l e buyer bl now out h
    exact ⟨hc.1, hc.2.1⟩
  · intro config l bidder payer now out h
    rw [settleAuction_ok config l bidder payer now out h]
    exact ⟨rfl, rfl⟩
  · intro config l seller now out h
    rw [cancelAuction_ok config l seller now out h]
    exact ⟨rfl, rfl⟩
  · intro config l seller now out h
    have hc := expireListing_ok config l seller now out h
    rw [hc.2.2.2.2.2]
    exact ⟨rfl, rfl⟩
  · intro l seller out h
    rw [cancelListing_ok l seller out h]
    exact ⟨rfl, rfl⟩
  · intro config l lk buyer bl amount deadline seed now out h
    rw [makeOffer_ok config l lk buyer bl amount deadline seed now out h]
    exact ⟨rfl, rfl⟩
  · intro l lk o el rent buyer now out h
    rw [cancelOffer_ok l lk o el rent buyer now out h]
    exact ⟨by simp, by simp⟩
  · intro l lk o el rent buyer caller now out h
    rw [expireOffer_ok l lk o el rent buyer caller now out h]
    exact ⟨by simp, by simp⟩
  · intro config l o le oel rent seller buyer now out h
    have hc := acceptOffer_ok config l o le oel rent seller buyer now out h
    exact ⟨hc.1, hc.2.1⟩

/-- C1 witness: a SOL-denominated listing created under `cfg0` captures
the Config's 500 / 200 bps, and buying `lMint` (non-APP SPL mint) leaves
its captured fees unchanged. -/
theorem C1_witness :
    (createListing cfg0 10 0 ListingType.Auction 1000000000 (some 1000000000)
        none 3600 false "" none 0).toOption.map
      (fun p => (p.1.platform_fee_bps, p.1.dispute_fee_bps)) = some (500, 200) ∧
    (buyNow cfg0 lMint { amount := 0 } 20 3000000000 100).toOption.map
      (fun o => (o.listing.platform_fee_bps, o.listing.dispute_fee_bps)) =
      some (500, 200) := by
  constructor
  · have h : createListing cfg0 10 0 ListingType.Auction 1000000000
        (some 1000000000) none 3600 false "" none 0 =
        .ok ({ lAuc with reserve_price := some 1000000000 }, { amount := 0 }) := rfl
    have hc := C1_fee_capture_amended.1 cfg0 10 0 ListingType.Auction 1000000000
      (some 1000000000) none 3600 false "" none 0 _ h
    rw [h]
    simp only [Except.toOption, Option.map]
    rw [hc.1, hc.2]
    rfl
  · rfl


/-- C2 counterexample: the claim allows only contest, execute-resolution,
withdraw-funds and set-paused to run while paused, but several other
state-mutating instructions are not gated on `paused` at all:
`verify_uploads` (its body never reads config.paused), and
`seller_confirm_transfer`, `cancel_listing` and `emergency_refund` (their
account structs do not even include the config), all succeed under the
paused deployment. -/
theorem C2_counterexample :
    cfgPaused.paused = true ∧
    (verifyUploads cfgPaused tx1 3 "hash" 100000).toOption.isSome = true ∧
    (sellerConfirmTransfer tx0 10 100).toOption.isSome = true ∧
    (cancelListing lAuc 10).toOption.isSome = true ∧
    (emergencyRefund tx0 e2 3000000000 1000 20 604801).toOption.isSome = true :=
  ⟨rfl, rfl, rfl, rfl, rfl⟩

/-- C2 (amended): when `config.paused` is true, the thirteen operations
that ARE gated on the pause flag (create_listing, place_bid, buy_now,
settle_auction, cancel_auction, expire_listing, emergency_auto_verify,
admin_emergency_verify, finalize_transaction, confirm_receipt, make_offer,
accept_offer, open_dispute) all fail with a paused error (ContractPaused
or PlatformPaused) before mutating anything — under the account
constraints that Anchor checks before the pause test.  The remaining
mutating operations (seller_confirm_transfer, verify_uploads,
cancel_listing, cancel_offer, expire_offer, emergency_refund,
propose_dispute_resolution and the admin two-step changes) are NOT pause
gated, beyond the exceptions the claim lists. -/
theorem C2_paused_gating_amended :
    (∀ config seller salt lty sp rp bnp dur rg rgu pm now,
      config.paused = true →
      createListing config seller salt lty sp rp bnp dur rg rgu pm now =
        .error .ContractPaused) ∧
    (∀ config l e b bl wr a now, config.paused = true →
      placeBid config l e b bl wr a now = .error .ContractPaused) ∧
    (∀ config l e b bl now, config.paused = true →
      buyNow config l e b bl now = .error .ContractPaused) ∧
    (∀ config l bidder payer now, config.paused = true →
      settleAuction config l bidder payer now = .error .ContractPaused) ∧
    (∀ config l seller now, config.paused = true →
      cancelAuction config l seller now = .error .PlatformPaused) ∧
    (∀ config l seller now, config.paused = true → l.seller = seller →
      expireListing config l seller now = .error .PlatformPaused) ∧
    (∀ config tx buyer now, config.paused = true →
      emergencyAutoVerify config tx buyer now = .error .ContractPaused) ∧
    (∀ config tx admin now, config.paused = true →
      adminEmergencyVerify config tx admin now = .error .ContractPaused) ∧
    (∀ config tx e el rent seller treasury sgn now, config.paused = true →
      seller = tx.seller → treasury = config.treasury →
      finalizeTransaction config tx e el rent seller treasury sgn now =
        .error .ContractPaused) ∧
    (∀ config tx e el rent buyer seller treasury now, config.paused = true →
      seller = tx.seller → treasury = config.treasury →
      confirmReceipt config tx e el rent buyer seller treasury now =
        .error .ContractPaused) ∧
    (∀ config l lk buyer bl amount deadline seed now, config.paused = true →
      makeOffer config l lk buyer bl amount deadline seed now =
        .error .ContractPaused) ∧
    (∀ config l o le oel rent seller buyer now, config.paused = true →
      o.buyer = buyer →
      acceptOffer config l o le oel rent seller buyer now =
        .error .ContractPaused) ∧
    (∀ config l tx initiator il treasury reason now, config.paused = true →
      treasury = config.treasury →
      openDispute config l tx initiator il treasury reason now =
        .error .PlatformPaused) := by
  refine ⟨?_, ?_, ?_, ?_, ?_, ?_, ?_, ?_, ?_, ?_, ?_, ?_, ?_⟩
  · intro config seller salt lty sp rp bnp dur rg rgu pm now hp
    exact createListing_paused config seller salt lty sp rp bnp dur rg rgu pm now hp
  · intro config l e b bl wr a now hp
    exact placeBid_paused config l e b bl wr a now hp
  · intro config l e b bl now hp
    exact buyNow_paused config l e b bl now hp
  · intro config l bidder payer now hp
    exact settleAuction_paused config l bidder payer now hp
  · intro config l seller now hp
    exact cancelAuction_paused config l seller now hp
  · intro config l seller now hp hsell
    exact expireListing_paused config l seller now hp hsell
  · intro config tx buyer now hp
    exact emergencyAutoVerify_paused config tx buyer now hp
  · intro config tx admin now hp
    exact adminEmergencyVerify_paused config tx admin now hp
  · intro config tx e el rent seller treasury sgn now hp hse htr
    exact finalizeTransaction_paused config tx e el rent seller treasury sgn now hp hse htr
  · intro config tx e el rent buyer seller treasury now hp hse htr
    exact confirmReceipt_paused config tx e el rent buyer seller treasury now hp hse htr
  · intro config l lk buyer bl amount deadline seed now hp
    exact makeOffer_paused config l lk buyer bl amount deadline seed now hp
  · intro config l o le oel rent seller buyer now hp hb
    exact acceptOffer_paused config l o le oel rent seller buyer now hp hb
  · intro config l tx initiator il treasury reason now hp htr
    exact openDispute_paused config l tx initiator il treasury reason now hp htr

/-- C2 witness: under the paused deployment `cfgPaused`, a concrete
create-listing and a concrete buy-now both fail with ContractPaused. -/
theorem C2_witness :
    createListing cfgPaused 10 0 ListingType.Auction 1000000000 none none
      3600 false "" none 0 = .error .ContractPaused ∧
    buyNow cfgPaused lMint { amount := 0 } 20 3000000000 100 =
      .error .ContractPaused := by
  constructor
  · exact C2_paused_gating_amended.1 cfgPaused 10 0 ListingType.Auction
      1000000000 none none 3600 false "" none 0 rfl
  · exact C2_paused_gating_amended.2.2.1 cfgPaused lMint { amount := 0 }
      20 3000000000 100 rfl

/-- C3 counterexample: the claim says every token-denominated listing
(`payment_mint = Some mint`) is rejected by buy_now, but the code only
rejects the APP token mint (lib.rs 715-720); a listing denominated in any
other SPL token (here mint key 555) is bought successfully with native
lamports. -/
theorem C3_counterexample :
    lMint.payment_mint = some 555 ∧ (555 : Pubkey) ≠ APP_TOKEN_MINT ∧
    (buyNow cfg0 lMint { amount := 0 } 20 3000000000 100).toOption.map
      (fun o => o.listing.status) = some ListingStatus.Sold :=
  ⟨rfl, by decide, rfl⟩

/-- C3 (amended): `buy_now` rejects exactly the APP-token-denominated
listings: if the payment mint is the APP token it fails with
InvalidPaymentMint before any funds move (under the checks that precede
the mint test), and every successful buy_now is on a listing whose
payment mint is not the APP token. -/
theorem C3_app_mint_only_amended :
    (∀ config l e buyer bl now bp, config.paused = false →
      l.status = ListingStatus.Active → now < l.end_time →
      l.buy_now_price = some bp → buyer ≠ l.seller →
      l.payment_mint = some APP_TOKEN_MINT →
      buyNow config l e buyer bl now = .error .InvalidPaymentMint) ∧
    (∀ config l e buyer bl now out, buyNow config l e buyer bl now = .ok out →
      l.payment_mint ≠ some APP_TOKEN_MINT) := by
  constructor
  · intro config l e buyer bl now bp hp hst htime hbp hbuyer hm
    unfold buyNow
    rw [if_neg (by simp [hp]), if_neg (by simp [hst]),
      if_neg (not_not_intro htime), hbp]
    simp [hbuyer, hm]
  · intro config l e buyer bl now out h
    exact (buyNow_ok config l e buyer bl now out h).2.2.2

/-- C3 witness: the APP-denominated listing `lApp` is rejected with
InvalidPaymentMint even with a fully funded buyer. -/
theorem C3_witness :
    buyNow cfg0 lApp { amount := 0 } 20 3000000000 100 =
      .error .InvalidPaymentMint :=
  C3_app_mint_only_amended.1 cfg0 lApp { amount := 0 } 20 3000000000 100
    2000000000 rfl rfl (by decide) rfl (by decide) rfl

/-- C4 counterexample: the claim restricts expire_listing to BuyNow-type
listings, but the code never checks `listing_type` (lib.rs 994-1022): the
Auction-type listing `lAuc` expires successfully once past end_time. -/
theorem C4_counterexample :
    lAuc.listing_type = ListingType.Auction ∧
    (expireListing cfg0 lAuc 10 3600).toOption.map
      (fun o => o.listing.status) = some ListingStatus.Expired :=
  ⟨rfl, rfl⟩

/-- C4 (amended): `expire_listing` succeeds exactly on an Active listing
of ANY type whose end_time has passed and which has no current bidder,
while the deployment is unpaused and the supplied `seller` account equals
`listing.seller`.  The instruction is permissionless: the `ExpireListing`
accounts struct (lib.rs 2637-2658) has no Signer, so `seller` here is only
the rent-recipient account, constrained to be the listing's seller key —
not an authorization of the caller.  On success the status becomes
Expired and the escrow closes with its rent refunded to that seller
account. -/
theorem C4_expire_amended :
    (∀ config l seller now out, expireListing config l seller now = .ok out →
      config.paused = false ∧ seller = l.seller ∧
      l.status = ListingStatus.Active ∧ l.end_time ≤ now ∧
      l.current_bidder = none ∧
      out.listing.status = ListingStatus.Expired ∧
      out.escrow_closed_rent_to = l.seller) ∧
    (∀ config l seller now, config.paused = false → l.seller = seller →
      l.status = ListingStatus.Active → l.end_time ≤ now →
      l.current_bidder = none →
      expireListing config l seller now =
        .ok { listing := { l with status := ListingStatus.Expired }
              escrow_closed_rent_to := seller }) := by
  constructor
  · intro config l seller now out h
    have hc := expireListing_ok config l seller now out h
    refine ⟨hc.2.1, hc.1, hc.2.2.1, hc.2.2.2.1, hc.2.2.2.2.1, ?_, ?_⟩
    · rw [hc.2.2.2.2.2]
    · rw [hc.2.2.2.2.2]
      exact hc.1
  · intro config l seller now hp hsell hst hexp hbid
    exact expireListing_complete config l seller now hp hsell hst hexp hbid

/-- C4 witness: at t = end_time the bidless auction `lAuc` is expired
(any caller, passing the seller account key 10 as rent recipient): status
Expired, escrow rent refunded to seller key 10. -/
theorem C4_witness :
    expireListing cfg0 lAuc 10 3600 =
      .ok { listing := { lAuc with status := ListingStatus.Expired }
            escrow_closed_rent_to := 10 } :=
  C4_expire_amended.2 cfg0 lAuc 10 3600 rfl rfl rfl (by decide) rfl


/-- C7: every bid accepted over a prior bid (old current_bid > 0) is at
least old + max(old·5% in floored basis points, 0.1 SOL); hence the new
current_bid is at least old·1.05 or at least old + 0.1 SOL (the 0.1-SOL
branch always holds, since the max is at least MIN_BID_INCREMENT_LAMPORTS),
and in all cases at least old + 1.  With no prior bid the accepted amount
is at least starting_price. -/
theorem C7_min_increment :
    ∀ config l e b bl wr a now out,
      placeBid config l e b bl wr a now = .ok out →
      (0 < l.current_bid →
        l.current_bid +
          max (l.current_bid * MIN_BID_INCREMENT_BPS / BASIS_POINTS_DIVISOR)
            MIN_BID_INCREMENT_LAMPORTS ≤ a ∧
        out.listing.current_bid = a ∧
        (l.current_bid * 105 / 100 ≤ out.listing.current_bid ∨
          l.current_bid + MIN_BID_INCREMENT_LAMPORTS ≤ out.listing.current_bid) ∧
        l.current_bid + 1 ≤ out.listing.current_bid) ∧
      (l.current_bid = 0 → l.starting_price ≤ a) := by
  intro config l e b bl wr a now out h
  have hl := placeBid_ok_listing config l e b bl wr a now out h
  have hp := placeBid_ok_pre config l e b bl wr a now out h
  constructor
  · intro hcb
    have hmin := hp.2.2.2.2.2.1 hcb
    unfold minBid at hmin
    have hmax := le_max_right
      (l.current_bid * MIN_BID_INCREMENT_BPS / BASIS_POINTS_DIVISOR)
      MIN_BID_INCREMENT_LAMPORTS
    unfold MIN_BID_INCREMENT_LAMPORTS at hmax hmin ⊢
    refine ⟨hmin, hl.2.2.1, ?_, ?_⟩
    · right
      rw [hl.2.2.1]
      omega
    · rw [hl.2.2.1]
      omega
  · exact hp.2.2.2.2.2.2

/-- C8: a bid accepted inside the anti-snipe window (now is within 900 s
of the pre-call end_time) always leaves at least 900 s of auction after
`now` — including first bids that start the reserve-gated timer and rebase
end_time, because the snipe check runs on the rebased end time. -/
theorem C8_anti_snipe :
    ∀ config l e b bl wr a now out,
      placeBid config l e b bl wr a now = .ok out →
      l.end_time - ANTI_SNIPE_WINDOW < now →
      ANTI_SNIPE_EXTENSION ≤ out.listing.end_time - now := by
  intro config l e b bl wr a now out h hw
  have hl := placeBid_ok_listing config l e b bl wr a now out h
  have hp := placeBid_ok_pre config l e b bl wr a now out h
  have hsr := hp.2.2.2.2.1
  rw [hl.2.2.2.2.2.2]
  rw [show bidListing2 l b a now = bidSnipe (bidListing1 l b a now) now from rfl]
  rw [bidSnipe_end_time, bidListing1_end_time, bidListing1_auction_started]
  unfold ANTI_SNIPE_WINDOW at hw
  unfold ANTI_SNIPE_WINDOW ANTI_SNIPE_EXTENSION
  by_cases hs : l.auction_started = true
  · have htime := hp.2.2.2.1 hs
    simp [hs]
    split_ifs with h1 <;> omega
  · have hs' : l.auction_started = false := by simpa using hs
    have hr : l.reserve_price.all (fun r => r ≤ a) = true := by
      simpa [hs'] using hsr
    simp [hs', hr]
    split_ifs with h1 <;> omega

/-- The auction-integrity invariant of C9: an Active Auction-type listing
with a recorded current bidder has a started timer. -/
def listingAuctionInv (l : Listing) : Prop :=
  l.listing_type = ListingType.Auction → l.status = ListingStatus.Active →
  l.current_bidder.isSome = true → l.auction_started = true

instance (l : Listing) : Decidable (listingAuctionInv l) := by
  unfold listingAuctionInv
  infer_instance

/-- C9: the invariant is established by create_listing (no bidder yet) and
preserved by every listing-mutating operation: an accepted bid always
leaves auction_started true (a bid below an unmet reserve is rejected),
and the other operations either keep bidder/timer or leave the Active
status. -/
theorem C9_auction_invariant :
    (∀ config seller salt lty sp rp bnp dur rg rgu pm now le,
      createListing config seller salt lty sp rp bnp dur rg rgu pm now = .ok le →
      listingAuctionInv le.1) ∧
    (∀ config l e b bl wr a now out, listingAuctionInv l →
      placeBid config l e b bl wr a now = .ok out →
      listingAuctionInv out.listing) ∧
    (∀ config l e buyer bl now out, listingAuctionInv l →
      buyNow config l e buyer bl now = .ok out → listingAuctionInv out.listing) ∧
    (∀ config l bidder payer now out, listingAuctionInv l →
      settleAuction config l bidder payer now = .ok out → listingAuctionInv out.1) ∧
    (∀ config l seller now out, listingAuctionInv l →
      cancelAuction config l seller now = .ok out → listingAuctionInv out) ∧
    (∀ config l seller now out, listingAuctionInv l →
      expireListing config l seller now = .ok out → listingAuctionInv out.listing) ∧
    (∀ l seller out, listingAuctionInv l →
      cancelListing l seller = .ok out → listingAuctionInv out) ∧
    (∀ config l lk buyer bl amount deadline seed now out, listingAuctionInv l →
      makeOffer config l lk buyer bl amount deadline seed now = .ok out →
      listingAuctionInv out.1) ∧
    (∀ l lk o el rent buyer now out, listingAuctionInv l →
      cancelOffer l lk o el rent buyer now = .ok out → listingAuctionInv out.1) ∧
    (∀ l lk o el rent buyer caller now out, listingAuctionInv l →
      expireOffer l lk o el rent buyer caller now = .ok out →
      listingAuctionInv out.1) ∧
    (∀ config l o le oel rent seller buyer now out, listingAuctionInv l →
      acceptOffer config l o le oel rent seller buyer now = .ok out →
      listingAuctionInv out.listing) := by
  refine ⟨?_, ?_, ?_, ?_, ?_, ?_, ?_, ?_, ?_, ?_, ?_⟩
  · intro config seller salt lty sp rp bnp dur rg rgu pm now le h
    intro hty hst hbid
    rw [(createListing_ok config seller salt lty sp rp bnp dur rg rgu pm now le h).2.2.1]
      at hbid
    simp at hbid
  · intro config l e b bl wr a now out hinv h
    intro hty hst hbid
    rw [(placeBid_ok_listing config l e b bl wr a now out h).2.2.2.2.2.1]
    exact (placeBid_ok_pre config l e b bl wr a now out h).2.2.2.2.1
  · intro config l e buyer bl now out hinv h
    intro hty hst hbid
    rw [(buyNow_ok config l e buyer bl now out h).2.2.1] at hst
    exact absurd hst (by decide)
  · intro config l bidder payer now out hinv h
    intro hty hst hbid
    rw [settleAuction_ok config l bidder payer now out h] at hst
    simp at hst
  · intro config l seller now out hinv h
    intro hty hst hbid
    rw [cancelAuction_ok config l seller now out h] at hst
    simp at hst
  · intro config l seller now out hinv h
    intro hty hst hbid
    rw [(expireListing_ok config l seller now out h).2.2.2.2.2] at hst
    simp at hst
  · intro l seller out hinv h
    intro hty hst hbid
    rw [cancelListing_ok l seller out h] at hst
    simp at hst
  · intro config l lk buyer bl amount deadline seed now out hinv h
    intro hty hst hbid
    rw [makeOffer_ok config l lk buyer bl amount deadline seed now out h]
      at hty hst hbid ⊢
    simp at hty hst hbid ⊢
    exact hinv hty hst hbid
  · intro l lk o el rent buyer now out hinv h
    intro hty hst hbid
    rw [cancelOffer_ok l lk o el rent buyer now out h] at hty hst hbid ⊢
    simp at hty hst hbid ⊢
    exact hinv hty hst hbid
  · intro l lk o el rent buyer caller now out hinv h
    intro hty hst hbid
    rw [expireOffer_ok l lk o el rent buyer caller now out h] at hty hst hbid ⊢
    simp at hty hst hbid ⊢
    exact hinv hty hst hbid
  · intro config l o le oel rent seller buyer now out hinv h
    intro hty hst hbid
    rw [(acceptOffer_ok config l o le oel rent seller buyer now out h).2.2] at hst
    exact absurd hst (by decide)

/-- C9 witness: the freshly created reserve auction `lAuc` satisfies the
invariant. -/
theorem C9_witness : listingAuctionInv lAuc :=
  C9_auction_invariant.1 cfg0 10 0 ListingType.Auction 1000000000
    (some 1000000000) none 3600 false "" none 0 (lAuc, { amount := 0 }) rfl


/-- The outcome of a concrete second bid: 1.2 SOL by key 21 over `lBid`'s
standing 1-SOL bid, at t = 100. -/
def outC7 : BidOutcome :=
  (placeBid cfg0 lBid { amount := 1000000000 } 21 3000000000 1000
    1200000000 100).toOption.get (by decide)

/-- C7 witness: the concrete 1.2-SOL bid over the standing 1-SOL bid
satisfies the minimum-increment bound and all derived lower bounds. -/
theorem C7_witness :
    lBid.current_bid +
      max (lBid.current_bid * MIN_BID_INCREMENT_BPS / BASIS_POINTS_DIVISOR)
        MIN_BID_INCREMENT_LAMPORTS ≤ 1200000000 ∧
    outC7.listing.current_bid = 1200000000 ∧
    lBid.current_bid + 1 ≤ outC7.listing.current_bid := by
  have hc := (C7_min_increment cfg0 lBid { amount := 1000000000 } 21 3000000000
      1000 1200000000 100 outC7 rfl).1 (by decide)
  exact ⟨hc.1, hc.2.1, hc.2.2.2⟩

/-- The outcome of a concrete anti-snipe bid: 1.2 SOL by key 21 over
`lBid` at t = 3000, inside the 900-second window before end_time 3610. -/
def outC8 : BidOutcome :=
  (placeBid cfg0 lBid { amount := 1000000000 } 21 3000000000 1000
    1200000000 3000).toOption.get (by decide)

/-- C8 witness: the concrete in-window bid leaves 900 s of auction after
t = 3000 (the rebased end time is 3900). -/
theorem C8_witness :
    lBid.end_time - ANTI_SNIPE_WINDOW < 3000 ∧
    ANTI_SNIPE_EXTENSION ≤ outC8.listing.end_time - 3000 := by
  refine ⟨by decide, ?_⟩
  exact C8_anti_snipe cfg0 lBid { amount := 1000000000 } 21 3000000000 1000
    1200000000 3000 outC8 rfl (by decide)

end AppMarket
